import Mathlib

/-!
Shallow embedding of the "UI Matrix Benchmark / Vector Logic Manifesto" pipeline:
the three renderers (`VectorRenderer`, `DomRenderer`, `FigmaSimulator`), the
benchmark engine (`BenchmarkEngine`), and the AI-friendliness scorer
(`ExportEngine`).  Every definition is translated from the JavaScript source of
the repository; the source file and function are named in each doc comment.

Modelling conventions:
* JavaScript numbers are modelled exactly by the fraction type `JsNum`
  (an integer numerator over a natural denominator).  All arithmetic performed
  by the embedded code (sums, products, division by a constant) is exact both
  in IEEE-754 binary64 for the values that actually occur at the scales used in
  the theorems below and in `JsNum`.
* `Number.prototype.toString` is modelled by `fmtNum`.  For values with a
  terminating decimal expansion (every number interpolated into markup at the
  concrete scales used below except the QR-code coordinates) `fmtNum` agrees
  with JavaScript exactly.  For non-terminating expansions (the multiples of
  60/21 inside the QR path) JavaScript prints the shortest decimal that
  round-trips through binary64 (15–17 significant digits); `fmtNum` prints the
  exact value rounded to 17 significant digits.  The two can differ by a final
  digit or two per printed number; the byte-size comparisons proved below have
  margins of thousands of bytes, far beyond this slack.
* Strings are produced as token lists (`List String`) mirroring the
  `parts.push(...)` / `parts.join('')` structure of the source, and joined by
  `outputOfTokens`, which is provably the same as concatenating the tokens.
* UTF-8 byte sizes (`new Blob([s]).size`) are modelled by `calculatePayload`,
  which measures the actual UTF-8 encoding produced by `utf8Encode`.
-/

set_option maxRecDepth 400000

/-- Model of a JavaScript number as an exact fraction: integer numerator `n`
over natural denominator `d`.  Well-formed values have `0 < d`; all smart
constructors preserve this.  The arithmetic used by the embedded renderers
(addition, multiplication, negation, division by a constant) is exact in
binary64 for the values arising there, so an exact fraction is a faithful
model. -/
structure JsNum where
  n : Int
  d : Nat
deriving DecidableEq, Repr

/-- Embed an integer as a JavaScript number. -/
def JsNum.ofInt (i : Int) : JsNum := ⟨i, 1⟩

/-- Embed a natural number as a JavaScript number. -/
def JsNum.ofNat (k : Nat) : JsNum := ⟨(k : Int), 1⟩

instance : OfNat JsNum k := ⟨JsNum.ofNat k⟩

/-- JavaScript `x * y` on exact fractions. -/
def JsNum.mul (x y : JsNum) : JsNum := ⟨x.n * y.n, x.d * y.d⟩

/-- JavaScript `x + y` on exact fractions. -/
def JsNum.add (x y : JsNum) : JsNum := ⟨x.n * (y.d : Int) + y.n * (x.d : Int), x.d * y.d⟩

/-- JavaScript unary minus. -/
def JsNum.neg (x : JsNum) : JsNum := ⟨-x.n, x.d⟩

/-- JavaScript `x - y`. -/
def JsNum.sub (x y : JsNum) : JsNum := x.add y.neg

/-- JavaScript `x / k` for a constant positive integer divisor `k` (the only
shape of division the renderers perform: `/ 2`, `/ 21`). -/
def JsNum.divNat (x : JsNum) (k : Nat) : JsNum := ⟨x.n, x.d * k⟩

/-- `x ≤ y` on fractions with positive denominators (cross multiplication). -/
def JsNum.le (x y : JsNum) : Bool := x.n * (y.d : Int) ≤ y.n * (x.d : Int)

/-- `x < y` on fractions with positive denominators (cross multiplication). -/
def JsNum.lt (x y : JsNum) : Bool := x.n * (y.d : Int) < y.n * (x.d : Int)

/-- Well-formedness of a `JsNum`: the denominator is positive. -/
def JsNum.WF (x : JsNum) : Prop := 0 < x.d

instance (x : JsNum) : Decidable x.WF := by unfold JsNum.WF; infer_instance

/-- The rational value of a `JsNum`; used to state the algebraic claims. -/
def JsNum.toRat (x : JsNum) : ℚ := (x.n : ℚ) / (x.d : ℚ)

/-- `Math.round(x)`: round half towards positive infinity,
`⌊x + 1/2⌋ = ⌊(2n + d) / 2d⌋` (floor division). -/
def jsRound (x : JsNum) : Int := Int.fdiv (2 * x.n + (x.d : Int)) (2 * (x.d : Int))

/-- Smallest `k ≤ fuel` with `d ∣ 10^k` (terminating-decimal test used by the
number formatter). -/
def findPow10 (d : Nat) : Nat → Option Nat
  | 0 => if d ∣ 1 then some 0 else none
  | fuel + 1 =>
    match findPow10 d fuel with
    | some k => some k
    | none => if d ∣ 10 ^ (fuel + 1) then some (fuel + 1) else none

/-- Print the natural number `m` with a decimal point inserted before its last
`k` digits (zero padding the front as needed): the digit string of `m / 10^k`. -/
def natDecimalString (m k : Nat) : String :=
  let ds := toString m
  let ds := if ds.length ≤ k then String.mk (List.replicate (k + 1 - ds.length) '0') ++ ds else ds
  let cs := ds.data
  String.mk (cs.take (cs.length - k)) ++ "." ++ String.mk (cs.drop (cs.length - k))

/-- Drop trailing `'0'` characters (used after fixed-precision printing). -/
def stripZeros (s : String) : String :=
  String.mk (((s.data.reverse).dropWhile (· = '0')).reverse)

/-- Print the positive fraction `a / d` (in lowest terms, non-terminating
decimal expansion) rounded to 17 significant digits, trailing zeros stripped.
JavaScript prints the shortest decimal that round-trips through binary64;
see the module comment for the (byte-level, sub-percent) difference. -/
def sig17 (a d : Nat) : String :=
  let ip := a / d
  if ip = 0 then
    -- values below 1 with non-terminating expansions never occur in this code
    -- base; printed with 17 digits after the leading zeros for totality
    let m := (2 * a * 10 ^ 17 + d) / (2 * d)
    stripZeros (natDecimalString m 17)
  else
    let fd := 17 - (toString ip).length
    let m := (2 * a * 10 ^ fd + d) / (2 * d)
    stripZeros (natDecimalString m fd)

/-- Model of `Number.prototype.toString` (template-literal interpolation and
`JSON.stringify` of numbers).  Integers print with no decimal point; fractions
with terminating decimal expansion print exactly; other fractions print with
17 significant digits (see module comment). -/
def fmtNum (x : JsNum) : String :=
  let sgn := if x.n < 0 then "-" else ""
  let a0 := x.n.natAbs
  let g := Nat.gcd a0 x.d
  if g = 0 then "0"
  else
    let a := a0 / g
    let d := x.d / g
    if a = 0 then "0"
    else if d = 1 then sgn ++ toString a
    else
      match findPow10 d 25 with
      | some k => sgn ++ natDecimalString (a * (10 ^ k / d)) k
      | none => sgn ++ sig17 a d

/-- Number of bytes the UTF-8 encoding of one Unicode scalar value occupies. -/
def utf8CharLen (c : Char) : Nat :=
  if c.toNat < 0x80 then 1
  else if c.toNat < 0x800 then 2
  else if c.toNat < 0x10000 then 3
  else 4

/-- UTF-8 byte size of a string, summed character by character. -/
def utf8Len (s : String) : Nat := (s.data.map utf8CharLen).sum

/-- The actual UTF-8 byte sequence of one Unicode scalar value. -/
def utf8EncodeChar (c : Char) : List Nat :=
  if c.toNat < 0x80 then [c.toNat]
  else if c.toNat < 0x800 then [0xC0 + c.toNat / 0x40, 0x80 + c.toNat % 0x40]
  else if c.toNat < 0x10000 then
    [0xE0 + c.toNat / 0x1000, 0x80 + c.toNat / 0x40 % 0x40, 0x80 + c.toNat % 0x40]
  else
    [0xF0 + c.toNat / 0x40000, 0x80 + c.toNat / 0x1000 % 0x40, 0x80 + c.toNat / 0x40 % 0x40,
      0x80 + c.toNat % 0x40]

/-- The UTF-8 byte sequence of a string. -/
def utf8Encode (s : String) : List Nat := (s.data.map utf8EncodeChar).flatten

/-- Number of UTF-16 code units of a string (`String.prototype.length` in
JavaScript): one unit for scalar values below `0x10000`, two (a surrogate
pair) otherwise. -/
def utf16Len (s : String) : Nat :=
  (s.data.map (fun c => if c.toNat < 0x10000 then 1 else 2)).sum

/-- Join a token list into the string the JavaScript code builds with
`parts.join('')` / template-literal concatenation.  Defined through
`List.flatten` (provably equal to iterated `String.append`) so that proofs can
reason about and evaluate the output token by token. -/
def outputOfTokens (l : List String) : String := ⟨(l.map String.data).flatten⟩

/-- UTF-8 byte size of a token list (the byte size of its concatenation). -/
def utf8LenParts (l : List String) : Nat := (l.map utf8Len).sum

/-- JavaScript truthiness of an optional string (`undefined` and `''` are
falsy): model of the `a || b` default-value idiom. -/
def jsTruthy : Option String → Bool
  | none => false
  | some s => !(s = "")

/-- `a || b` for an optional string with a default. -/
def jsOr (a : Option String) (b : String) : String :=
  match a with
  | none => b
  | some s => if s = "" then b else s

/-- The property bag passed to the renderers (`RenderProps` in the spec):
every field the three renderers read.  Absent fields are `none`. -/
structure Props where
  title : Option String := none
  description : Option String := none
  subtitle : Option String := none
  buttonText : Option String := none
  firstName : Option String := none
  lastName : Option String := none
  birthDate : Option String := none
  cardNumber : Option String := none
deriving DecidableEq

/-- The empty props object `{}` (all renderer defaults apply). -/
def defaultProps : Props := {}

namespace ExportEngine

/-- Count of matches of the element regex `/<[^>]+>/g`
(src/src/export-engine.js, `analyzeAIFriendliness`): a left-to-right scan; a
match starts at `'<'`, spans one or more non-`'>'` characters and ends at the
next `'>'`.  State machine: `none` = outside a candidate, `some k` = inside a
candidate that has consumed `k` characters since its `'<'`. -/
def countTagsAux : List Char → Option Nat → Nat → Nat
  | [], _, acc => acc
  | c :: rest, none, acc =>
    if c = '<' then countTagsAux rest (some 0) acc else countTagsAux rest none acc
  | c :: rest, some k, acc =>
    if c = '>' then
      if 1 ≤ k then countTagsAux rest none (acc + 1) else countTagsAux rest none acc
    else countTagsAux rest (some (k + 1)) acc

/-- `(content.match(/<[^>]+>/g) || []).length`. -/
def countTags (s : String) : Nat := countTagsAux s.data none 0

/-- `haystack.includes(needle)` (substring containment). -/
def containsSub (needle : String) : List Char → Bool
  | [] => needle.data.isPrefixOf []
  | c :: rest => needle.data.isPrefixOf (c :: rest) || containsSub needle rest

/-- `String.prototype.includes` as used by `analyzeAIFriendliness`. -/
def jsIncludes (hay needle : String) : Bool := containsSub needle hay.data

/-- `Math.ceil(n / 4)` on a non-negative integer, as computed for the token
estimate: `(n + 3) / 4` in natural-number division. -/
def ceilDiv4 (len : Nat) : Nat := (len + 3) / 4

/-- `calculateAIScore` before the final clamp (src/src/export-engine.js lines
219–234): start at 100, subtract the token and element penalties, add the
formula bonus. -/
def calculateAIScoreRaw (tokens elements : Nat) (hasFormulas : Bool) : Int :=
  100 - (if 1000 < tokens then 20 else 0) - (if 5000 < tokens then 30 else 0)
    - (if 50 < elements then 15 else 0) - (if 100 < elements then 25 else 0)
    + (if hasFormulas then 10 else 0)

/-- `ExportEngine.calculateAIScore(tokens, elements, hasFormulas)`
(src/src/export-engine.js lines 219–234): the raw score clamped into [0, 100]
by `Math.max(0, Math.min(100, score))`. -/
def calculateAIScore (tokens elements : Nat) (hasFormulas : Bool) : Int :=
  max 0 (min 100 (calculateAIScoreRaw tokens elements hasFormulas))

/-- Result record of `analyzeAIFriendliness`.  The source also computes
`isParsable` (via the browser `DOMParser`, a platform API outside the
embedding) and `numberCount` (a digit-run count); neither feeds
`aiFriendlyScore` nor any claim, so they are not modelled. -/
structure Analysis where
  estimatedTokens : Nat
  elementCount : Nat
  hasFormulas : Bool
  aiFriendlyScore : Int
  structureType : String
deriving DecidableEq

/-- `ExportEngine.analyzeAIFriendliness(content)` (src/src/export-engine.js
lines 182–214).  `content.length` in JavaScript is the UTF-16 code-unit count,
hence `utf16Len`. -/
def analyzeAIFriendliness (content : String) : Analysis :=
  let estimatedTokens := ceilDiv4 (utf16Len content)
  let elementCount := countTags content
  let hasFormulas := jsIncludes content "stroke-dasharray" || jsIncludes content "transform"
    || jsIncludes content "viewBox"
  { estimatedTokens := estimatedTokens
    elementCount := elementCount
    hasFormulas := hasFormulas
    aiFriendlyScore := calculateAIScore estimatedTokens elementCount hasFormulas
    structureType := if hasFormulas then "Mathematical (Formulaic)" else "Declarative (Markup)" }

end ExportEngine

namespace BenchmarkEngine

/-- `BenchmarkEngine.calculatePayload(content)` (src/unnamed/part_011 lines
22–24): `new Blob([content]).size`.  A `Blob` built from a string stores its
UTF-8 encoding, so the size is the length of the UTF-8 byte sequence. -/
def calculatePayload (content : String) : Nat := (utf8Encode content).length

/-- Result record of `BenchmarkEngine.stressTest`. -/
structure StressResult where
  totalTime : ℚ
  avgTime : ℚ
  totalSize : ℚ
  avgSize : ℚ
  count : Int
deriving DecidableEq

/-- `BenchmarkEngine.stressTest(renderFn, count, props)` (src/unnamed/part_011
lines 75–93).  The render function is modelled as `Nat → String` (output of
the i-th iteration; the source calls `renderFn(props)` on a possibly stateful
renderer, so outputs may vary by iteration).  Wall-clock time is ambient: the
measured `end - start` enters as the parameter `elapsed`, and the loop runs
`count` times (`for (let i = 0; i < count; i++)`, i.e. `max count 0`
iterations).  No validation of `count` is performed, exactly as in the
source. -/
def stressTest (renderFn : Nat → String) (count : Int) (elapsed : ℚ) : StressResult :=
  let totalSize : ℚ :=
    ((List.range count.toNat).map (fun i => (calculatePayload (renderFn i) : ℚ))).sum
  { totalTime := elapsed
    avgTime := elapsed / (count : ℚ)
    totalSize := totalSize
    avgSize := totalSize / (count : ℚ)
    count := count }

end BenchmarkEngine

namespace VectorRenderer

/-- Mutable state of a `VectorRenderer` instance (src/src/generators/
vector-renderer.js, constructor): the stacking cursor, the 3D-tilt pair, the
security-pattern cache (a `Map`, modelled as an association list in insertion
order: oldest entry first, `Map.set` appends, `Map.get` finds its unique
entry), and the statistics counters. -/
structure State where
  currentY : JsNum
  tiltX : JsNum
  tiltY : JsNum
  patternCache : List (String × String)
  rendersCount : Nat
  cacheHits : Nat
  cacheMisses : Nat
deriving DecidableEq

/-- A freshly constructed `VectorRenderer`: zero cursor, zero tilt, empty
cache, zero statistics. -/
def initialState : State :=
  { currentY := JsNum.ofInt 0
    tiltX := JsNum.ofInt 0
    tiltY := JsNum.ofInt 0
    patternCache := []
    rendersCount := 0
    cacheHits := 0
    cacheMisses := 0 }

/-- `Map.prototype.get`: first (unique) entry with the given key. -/
def cacheLookup (key : String) : List (String × String) → Option String
  | [] => none
  | (k, v) :: rest => if k = key then some v else cacheLookup key rest

/-- `this.patternCache.delete(this.patternCache.keys().next().value)`: drop
the oldest entry (the head, in insertion order). -/
def cacheEvictOldest : List (String × String) → List (String × String)
  | [] => []
  | _ :: rest => rest

/-- Typed errors thrown by `_validateScale` / `_validateProps`
(src/src/generators/vector-renderer.js lines 188–219). -/
inductive RenderError where
  | typeError (msg : String)
  | rangeError (msg : String)
deriving DecidableEq

/-- `_validateScale(scale)` (src/src/generators/vector-renderer.js lines
209–219): throws a `RangeError` unless `0 < scale ≤ 100`.  The `TypeError`
branch (`typeof scale !== 'number'`) is unreachable in the embedding because
the argument is a number by type.  The `console.warn` for `scale > 10` does
not affect the result. -/
def validateScale (scale : JsNum) : Option RenderError :=
  if scale.le (JsNum.ofInt 0) || (JsNum.ofInt 100).lt scale then
    some (.rangeError ("Scale must be between 0 and 100, got " ++ fmtNum scale))
  else
    none

/-- Number of iterations of `for (let i = 0; i < width; i += spacing)`:
`⌈width / spacing⌉` for positive `width` and `spacing` (the call sites
guarantee both; guarded to 0 otherwise since the JavaScript loop would not
terminate for `spacing ≤ 0`). -/
def patternIters (width spacing : JsNum) : Nat :=
  if 0 < spacing.n ∧ 0 < width.n then
    (-(Int.fdiv (-(width.n * (spacing.d : Int))) (spacing.n * (width.d : Int)))).toNat
  else 0

/-- One diagonal line of the security pattern, at `i = k · spacing`
(src/src/generators/vector-renderer.js lines 258–260). -/
def securityPatternLine (height spacing strokeWidth : JsNum) (k : Nat) : String :=
  let i := (JsNum.ofNat k).mul spacing
  "<path d=\"M" ++ fmtNum i ++ " 0 L" ++ fmtNum (i.sub spacing) ++ " " ++ fmtNum height
    ++ "\" stroke=\"white\" stroke-width=\"" ++ fmtNum strokeWidth
    ++ "\" stroke-opacity=\"0.1\"/>"

/-- The security-pattern string `parts.join('')` computed on a cache miss
(src/src/generators/vector-renderer.js lines 249–264): `spacing = 20 * scale`,
`strokeWidth = 0.5 * scale`. -/
def securityPatternString (width height scale : JsNum) : String :=
  let spacing := (JsNum.ofInt 20).mul scale
  let strokeWidth := JsNum.divNat scale 2
  outputOfTokens
    ((List.range (patternIters width spacing)).map
      (securityPatternLine height spacing strokeWidth))

/-- `generateSecurityPattern(width, height, scale)` (src/src/generators/
vector-renderer.js lines 243–273): look the key up in the pattern cache; on a
hit return the cached string, on a miss compute the pattern, evict the oldest
entry if the cache holds 50 or more, store, and return it.  Statistics
counters are updated either way. -/
def generateSecurityPattern (width height scale : JsNum) (st : State) : String × State :=
  let cacheKey := "pattern_" ++ fmtNum width ++ "_" ++ fmtNum height ++ "_" ++ fmtNum scale
  match cacheLookup cacheKey st.patternCache with
  | some v => (v, { st with cacheHits := st.cacheHits + 1 })
  | none =>
    let pattern := securityPatternString width height scale
    let cache1 :=
      if 50 ≤ st.patternCache.length then cacheEvictOldest st.patternCache
      else st.patternCache
    (pattern,
      { st with
        cacheMisses := st.cacheMisses + 1
        patternCache := cache1 ++ [(cacheKey, pattern)] })

/-- The 21×21 QR bit table (first 8 rows populated) from `generateVectorQR`
(src/src/generators/vector-renderer.js lines 288–297), transcribed verbatim. -/
def qrPattern : List Nat :=
  [1, 1, 1, 1, 1, 1, 1, 0, 0, 1, 0, 1, 0, 1, 1, 1, 1, 1, 1, 1, 1,
   1, 0, 0, 0, 0, 0, 1, 0, 1, 0, 1, 0, 1, 0, 1, 0, 0, 0, 0, 0, 1,
   1, 0, 1, 1, 1, 0, 1, 0, 0, 1, 1, 1, 0, 0, 1, 0, 1, 1, 1, 0, 1,
   1, 0, 1, 1, 1, 0, 1, 0, 1, 0, 1, 0, 1, 0, 1, 0, 1, 1, 1, 0, 1,
   1, 0, 1, 1, 1, 0, 1, 0, 0, 1, 0, 1, 0, 0, 1, 0, 1, 1, 1, 0, 1,
   1, 0, 0, 0, 0, 0, 1, 0, 1, 0, 1, 0, 1, 0, 1, 0, 0, 0, 0, 0, 1,
   1, 1, 1, 1, 1, 1, 1, 0, 1, 0, 1, 0, 1, 0, 1, 1, 1, 1, 1, 1, 1,
   0, 0, 0, 0, 0, 0, 0, 0, 0, 1, 0, 1, 0, 0, 0, 0, 0, 0, 0, 0, 0]

/-- One `M... h... v... h... z` square of the QR path, for grid cell
`(i, j)` (src/src/generators/vector-renderer.js lines 303–309). -/
def qrSegment (x y pixelSize : JsNum) (i j : Nat) : String :=
  let px := x.add ((JsNum.ofNat j).mul pixelSize)
  let py := y.add ((JsNum.ofNat i).mul pixelSize)
  "M" ++ fmtNum px ++ " " ++ fmtNum py ++ " h" ++ fmtNum pixelSize ++ " v" ++ fmtNum pixelSize
    ++ " h" ++ fmtNum pixelSize.neg ++ " z"

/-- The list of QR squares: cells `(i, j)` with `i < 8`, `j < 21` whose table
entry is 1 (the loop bound `i < gridSize && i < 8` and the in-range
`index >= pattern.length` guard of the source; the guard never fires for
`i < 8`). -/
def qrSegments (x y pixelSize : JsNum) : List String :=
  ((List.range 8).map (fun i =>
    ((List.range 21).filterMap (fun j =>
      if qrPattern.getD (i * 21 + j) 0 = 1 then some (qrSegment x y pixelSize i j)
      else none)))).flatten

/-- `generateVectorQR(x, y, size, scale, color)` (src/src/generators/
vector-renderer.js lines 286–313) as a token list: the squares joined with
`' '` inside one `<path>` element.  `pixelSize = size * scale / 21`. -/
def generateVectorQRTokens (x y size scale : JsNum) (color : String) : List String :=
  let actualSize := size.mul scale
  let pixelSize := JsNum.divNat actualSize 21
  ["<path d=\""] ++ (qrSegments x y pixelSize).intersperse " "
    ++ ["\" fill=\"" ++ color ++ "\" role=\"img\" aria-label=\"QR код\"/>"]

/-- `generateHologramGradient(id, offsetX, offsetY)` (src/src/generators/
vector-renderer.js lines 228–243): the template literal with its exact
whitespace; `x1 = offsetX·100`, `y1 = offsetY·100`, `x2 = 100 + offsetX·100`,
`y2 = 100 + offsetY·100`; the stop colors use the `#67C3F3` primary token. -/
def generateHologramGradient (id : String) (offsetX offsetY : JsNum) : String :=
  let x1 := (JsNum.ofInt 0).add (offsetX.mul (JsNum.ofInt 100))
  let y1 := (JsNum.ofInt 0).add (offsetY.mul (JsNum.ofInt 100))
  let x2 := (JsNum.ofInt 100).add (offsetX.mul (JsNum.ofInt 100))
  let y2 := (JsNum.ofInt 100).add (offsetY.mul (JsNum.ofInt 100))
  "\n      <linearGradient id=\"" ++ id ++ "\" x1=\"" ++ fmtNum x1 ++ "%\" y1=\"" ++ fmtNum y1
    ++ "%\" x2=\"" ++ fmtNum x2 ++ "%\" y2=\"" ++ fmtNum y2 ++ "%\">\n        "
    ++ "<stop offset=\"0%\" stop-color=\"#ffffff\" stop-opacity=\"0.05\" />\n        "
    ++ "<stop offset=\"30%\" stop-color=\"#67C3F3\" stop-opacity=\"0.15\" />\n        "
    ++ "<stop offset=\"70%\" stop-color=\"#ffffff\" stop-opacity=\"0.2\" />\n        "
    ++ "<stop offset=\"100%\" stop-color=\"#67C3F3\" stop-opacity=\"0.05\" />\n      "
    ++ "</linearGradient>\n    "

/-- The numeric layout of `renderDiiaIDCard` (src/src/generators/
vector-renderer.js lines 337–364): every local dimension constant, computed
from the design tokens exactly as in the source.  `flagHalfH` is the one
value that is *not* a constant multiple of `scale`: it is
`Math.round(flagH / 2)`. -/
structure CardLayout where
  w : JsNum
  h : JsNum
  p : JsNum
  r : JsNum
  cardW : JsNum
  cardH : JsNum
  cardX : JsNum
  cardY : JsNum
  cardR : JsNum
  flagX : JsNum
  flagY : JsNum
  flagW : JsNum
  flagH : JsNum
  flagHalfH : JsNum
  titleX : JsNum
  titleY : JsNum
  photoR : JsNum
  photoX : JsNum
  photoY : JsNum
  dataX : JsNum
  dataY0 : JsNum
  qrSize : JsNum
  qrX : JsNum
  qrY : JsNum
  logoX : JsNum
  logoY : JsNum

/-- Compute the `renderDiiaIDCard` layout at a given scale, following the
source formulas line by line (design tokens: canvas 360×680, spacing.md 16,
spacing.xl 32, radius.lg 24, radius.md 16, card.height 220, card.photoRadius
45, card.qrSize 60, card.flagWidth 40, card.flagHeight 24). -/
def cardLayout (scale : JsNum) : CardLayout :=
  let w := (JsNum.ofInt 360).mul scale
  let h := (JsNum.ofInt 680).mul scale
  let p := (JsNum.ofInt 16).mul scale
  let r := (JsNum.ofInt 24).mul scale
  let cardW := w.sub (p.mul (JsNum.ofInt 2))
  let cardH := (JsNum.ofInt 220).mul scale
  let cardX := p
  let cardY := p.add ((JsNum.ofInt 32).mul scale)
  let cardR := (JsNum.ofInt 16).mul scale
  let flagX := cardX.add (p.mul (JsNum.ofInt 2))
  let flagY := cardY.add (p.mul (JsNum.ofInt 2))
  let flagW := (JsNum.ofInt 40).mul scale
  let flagH := (JsNum.ofInt 24).mul scale
  let flagHalfH := JsNum.ofInt (jsRound (flagH.divNat 2))
  let titleX := (flagX.add flagW).add ((JsNum.ofInt 12).mul scale)
  let titleY := flagY.add ((JsNum.ofInt 18).mul scale)
  let photoR := (JsNum.ofInt 45).mul scale
  let photoX := (cardX.add (p.mul (JsNum.ofInt 2))).add photoR
  let photoY := cardY.add ((JsNum.ofInt 90).mul scale)
  let dataX := (photoX.add photoR).add ((JsNum.ofInt 20).mul scale)
  let dataY0 := cardY.add ((JsNum.ofInt 70).mul scale)
  let qrSize := (JsNum.ofInt 60).mul scale
  let qrX := ((cardX.add cardW).sub qrSize).sub (p.mul (JsNum.ofInt 2))
  let qrY := ((cardY.add cardH).sub qrSize).sub (p.mul (JsNum.ofInt 2))
  let logoX := cardX.add (p.mul (JsNum.ofInt 2))
  let logoY := (cardY.add cardH).sub ((JsNum.ofInt 40).mul scale)
  { w := w, h := h, p := p, r := r, cardW := cardW, cardH := cardH, cardX := cardX
    cardY := cardY, cardR := cardR, flagX := flagX, flagY := flagY, flagW := flagW
    flagH := flagH, flagHalfH := flagHalfH, titleX := titleX, titleY := titleY
    photoR := photoR, photoX := photoX, photoY := photoY, dataX := dataX
    dataY0 := dataY0, qrSize := qrSize, qrX := qrX, qrY := qrY, logoX := logoX
    logoY := logoY }

/-- The five label/value pairs of the data-fields loop
(src/src/generators/vector-renderer.js lines 385–390), with the `||` default
for each props-backed value. -/
def cardFields (props : Props) : List (String × String) :=
  [("1. Прізвище", jsOr props.lastName "ШЕВЧЕНКО"),
   ("2. Ім\x27я", jsOr props.firstName "ТАРАС"),
   ("3. Дата народження", jsOr props.birthDate "09.03.1814"),
   ("4a. Дата видачі", "15.11.2024"),
   ("4c. Дійсне до", "15.11.2034")]

/-- The two `<text>` elements emitted per field, positioned at the running
`dataY` cursor (`dataY += 12·scale` after the label, `+= 18·scale` after the
value). -/
def cardFieldTokens (scale dataX : JsNum) (dataY : JsNum) (field : String × String) :
    List String :=
  let labelY := dataY
  let valueY := dataY.add ((JsNum.ofInt 12).mul scale)
  ["<text x=\"" ++ fmtNum dataX ++ "\" y=\"" ++ fmtNum labelY
      ++ "\" font-family=\"e-Ukraine, Inter, sans-serif\" font-size=\""
      ++ fmtNum ((JsNum.ofInt 7).mul scale) ++ "\" fill=\"#666666\">" ++ field.1 ++ "</text>",
   "<text x=\"" ++ fmtNum dataX ++ "\" y=\"" ++ fmtNum valueY
      ++ "\" font-family=\"e-Ukraine, Inter, sans-serif\" font-weight=\"600\" font-size=\""
      ++ fmtNum ((JsNum.ofInt 10).mul scale) ++ "\" fill=\"#0a0e27\">" ++ field.2 ++ "</text>"]

/-- Token lists of the data-fields loop: each field advances the cursor by
`12·scale + 18·scale = 30·scale`. -/
def cardFieldsTokens (scale dataX : JsNum) : JsNum → List (String × String) → List String
  | _, [] => []
  | dataY, f :: rest =>
    cardFieldTokens scale dataX dataY f
      ++ cardFieldsTokens scale dataX ((dataY.add ((JsNum.ofInt 12).mul scale)).add
        ((JsNum.ofInt 18).mul scale)) rest

/-- The full token list of `renderDiiaIDCard` (src/src/generators/
vector-renderer.js lines 365–415), one token per `parts.push` (the QR path is
kept as its sub-tokens), in source order.  `pattern` is the security-pattern
string obtained from the cache. -/
def cardTokens (props : Props) (scale tiltX tiltY : JsNum) (pattern : String) : List String :=
  let L := cardLayout scale
  ["<svg width=\"" ++ fmtNum L.w ++ "\" height=\"" ++ fmtNum L.h ++ "\" viewBox=\"0 0 "
      ++ fmtNum L.w ++ " " ++ fmtNum L.h
      ++ "\" xmlns=\"http://www.w3.org/2000/svg\" role=\"img\" aria-label=\"Diia ID Card\">",
   "<defs>",
   generateHologramGradient "holo-gradient" (tiltX.mul ⟨1, 2⟩) (tiltY.mul ⟨1, 2⟩),
   "<filter id=\"shadow\"><feDropShadow dx=\"0\" dy=\"4\" stdDeviation=\"8\" flood-opacity=\"0.15\"/></filter>",
   "<clipPath id=\"card-clip\"><rect x=\"" ++ fmtNum L.cardX ++ "\" y=\"" ++ fmtNum L.cardY
      ++ "\" width=\"" ++ fmtNum L.cardW ++ "\" height=\"" ++ fmtNum L.cardH ++ "\" rx=\""
      ++ fmtNum L.cardR ++ "\"/></clipPath></defs>",
   "<rect width=\"" ++ fmtNum L.w ++ "\" height=\"" ++ fmtNum L.h ++ "\" rx=\"" ++ fmtNum L.r
      ++ "\" fill=\"#E2ECF4\"/>",
   "<rect x=\"" ++ fmtNum L.cardX ++ "\" y=\"" ++ fmtNum L.cardY ++ "\" width=\""
      ++ fmtNum L.cardW ++ "\" height=\"" ++ fmtNum L.cardH ++ "\" rx=\"" ++ fmtNum L.cardR
      ++ "\" fill=\"#FFFFFF\" filter=\"url(#shadow)\"/>",
   "<g opacity=\"0.3\" clip-path=\"url(#card-clip)\">",
   pattern,
   "</g>",
   "<rect x=\"" ++ fmtNum L.cardX ++ "\" y=\"" ++ fmtNum L.cardY ++ "\" width=\""
      ++ fmtNum L.cardW ++ "\" height=\"" ++ fmtNum L.cardH ++ "\" rx=\"" ++ fmtNum L.cardR
      ++ "\" fill=\"url(#holo-gradient)\" aria-hidden=\"true\"/>",
   "<g role=\"img\" aria-label=\"Прапор України\"><rect x=\"" ++ fmtNum L.flagX ++ "\" y=\""
      ++ fmtNum L.flagY ++ "\" width=\"" ++ fmtNum L.flagW ++ "\" height=\""
      ++ fmtNum L.flagHalfH ++ "\" fill=\"#005BBB\"/><rect x=\"" ++ fmtNum L.flagX
      ++ "\" y=\"" ++ fmtNum (L.flagY.add L.flagHalfH) ++ "\" width=\"" ++ fmtNum L.flagW
      ++ "\" height=\"" ++ fmtNum (L.flagH.sub L.flagHalfH) ++ "\" fill=\"#FFD700\"/></g>",
   "<text x=\"" ++ fmtNum L.titleX ++ "\" y=\"" ++ fmtNum L.titleY
      ++ "\" font-family=\"e-Ukraine, Inter, sans-serif\" font-weight=\"bold\" font-size=\""
      ++ fmtNum ((JsNum.ofInt 14).mul scale) ++ "\" fill=\"#0a0e27\">УКРАЇНА</text>",
   "<text x=\"" ++ fmtNum L.titleX ++ "\" y=\""
      ++ fmtNum (L.titleY.add ((JsNum.ofInt 16).mul scale))
      ++ "\" font-family=\"e-Ukraine, Inter, sans-serif\" font-size=\""
      ++ fmtNum ((JsNum.ofInt 10).mul scale) ++ "\" fill=\"#666666\">"
      ++ jsOr props.title "ПОСВІДЧЕННЯ ВОДІЯ" ++ "</text>",
   "<circle cx=\"" ++ fmtNum L.photoX ++ "\" cy=\"" ++ fmtNum L.photoY ++ "\" r=\""
      ++ fmtNum L.photoR ++ "\" fill=\"#D0D0D0\" stroke=\"#67C3F3\" stroke-width=\""
      ++ fmtNum ((JsNum.ofInt 2).mul scale)
      ++ "\" role=\"img\" aria-label=\"Фото\"/>",
   "<text x=\"" ++ fmtNum L.photoX ++ "\" y=\""
      ++ fmtNum (L.photoY.add ((JsNum.ofInt 5).mul scale)) ++ "\" font-size=\""
      ++ fmtNum ((JsNum.ofInt 40).mul scale)
      ++ "\" text-anchor=\"middle\" opacity=\"0.3\" aria-hidden=\"true\">👤</text>"]
  ++ cardFieldsTokens scale L.dataX L.dataY0 (cardFields props)
  ++ ["<rect x=\"" ++ fmtNum L.qrX ++ "\" y=\"" ++ fmtNum L.qrY ++ "\" width=\""
      ++ fmtNum L.qrSize ++ "\" height=\"" ++ fmtNum L.qrSize ++ "\" fill=\"white\"/>"]
  ++ generateVectorQRTokens L.qrX L.qrY (JsNum.ofInt 60) scale "#0a0e27"
  ++ ["<text x=\"" ++ fmtNum L.logoX ++ "\" y=\"" ++ fmtNum L.logoY
      ++ "\" font-family=\"e-Ukraine, Inter, sans-serif\" font-weight=\"bold\" font-size=\""
      ++ fmtNum ((JsNum.ofInt 18).mul scale)
      ++ "\" fill=\"#67C3F3\" role=\"img\" aria-label=\"Дія логотип\">Дія</text>",
   "<text x=\"" ++ fmtNum (L.cardX.add (L.cardW.divNat 2)) ++ "\" y=\""
      ++ fmtNum ((L.cardY.add L.cardH).sub ((JsNum.ofInt 12).mul scale))
      ++ "\" text-anchor=\"middle\" font-family=\"monospace\" font-size=\""
      ++ fmtNum ((JsNum.ofInt 8).mul scale) ++ "\" fill=\"#999999\">№ "
      ++ jsOr props.cardNumber "AAA 123456" ++ "</text>",
   "</svg>"]

/-- `renderDiiaIDCard(props, scale)` (src/src/generators/vector-renderer.js
lines 337–415): validate, reset the cursor, bump the render counter, obtain
the security pattern through the cache, and join the parts.  `_validateProps`
always succeeds in the embedding (the argument is an object by type). -/
def renderDiiaIDCard (props : Props) (scale : JsNum) (st : State) :
    Except RenderError (String × State) :=
  match validateScale scale with
  | some e => .error e
  | none =>
    let st1 := { st with currentY := JsNum.ofInt 0, rendersCount := st.rendersCount + 1 }
    let L := cardLayout scale
    let res := generateSecurityPattern L.cardW L.cardH scale st1
    .ok (outputOfTokens (cardTokens props scale res.2.tiltX res.2.tiltY res.1), res.2)

/-- The token list of `renderUploadScreen` (src/src/generators/
vector-renderer.js lines 424–480), one token per `parts.push`, in source
order.  All positions are the source formulas: `cardY = 16·s`, `cardX = 8·s`,
`cardW = width − 16·s`, `cardH = height − 32·s`, content at `cardX + P`,
cursor `cardY + 32·s`, then `+24·s`, `+32·s`; zone 120·s high and
`cardW − 2P` wide; button 56·s high at `cardY + cardH − 56·s − P`. -/
def uploadTokens (props : Props) (scale : JsNum) : List String :=
  let width := (JsNum.ofInt 360).mul scale
  let height := (JsNum.ofInt 680).mul scale
  let p := (JsNum.ofInt 16).mul scale
  let cardY := (JsNum.ofInt 16).mul scale
  let cardX := (JsNum.ofInt 8).mul scale
  let cardW := width.sub ((JsNum.ofInt 16).mul scale)
  let cardH := height.sub ((JsNum.ofInt 32).mul scale)
  let contentX := cardX.add p
  let y1 := cardY.add ((JsNum.ofInt 32).mul scale)
  let y2 := y1.add ((JsNum.ofInt 24).mul scale)
  let y3 := y2.add ((JsNum.ofInt 32).mul scale)
  let zoneH := (JsNum.ofInt 120).mul scale
  let zoneW := cardW.sub (p.mul (JsNum.ofInt 2))
  let centerX := contentX.add (zoneW.divNat 2)
  let centerY := y3.add (zoneH.divNat 2)
  let arrowY := centerY.sub ((JsNum.ofInt 12).mul scale)
  let btnH := (JsNum.ofInt 56).mul scale
  let btnY := ((cardY.add cardH).sub btnH).sub p
  ["<svg xmlns=\"http://www.w3.org/2000/svg\" viewBox=\"0 0 " ++ fmtNum width ++ " "
      ++ fmtNum height ++ "\" width=\"" ++ fmtNum width ++ "\" height=\"" ++ fmtNum height
      ++ "\" role=\"img\" aria-label=\"" ++ jsOr props.title "Завантаження документів"
      ++ "\">",
   "<rect width=\"" ++ fmtNum width ++ "\" height=\"" ++ fmtNum height
      ++ "\" fill=\"#E2ECF4\" rx=\"" ++ fmtNum ((JsNum.ofInt 24).mul scale) ++ "\"/>",
   "<rect x=\"" ++ fmtNum cardX ++ "\" y=\"" ++ fmtNum cardY ++ "\" width=\"" ++ fmtNum cardW
      ++ "\" height=\"" ++ fmtNum cardH ++ "\" rx=\"" ++ fmtNum ((JsNum.ofInt 24).mul scale)
      ++ "\" fill=\"#FFFFFF\"/>",
   "<text x=\"" ++ fmtNum contentX ++ "\" y=\"" ++ fmtNum y1
      ++ "\" font-family=\"e-Ukraine, Inter, sans-serif\" font-weight=\"bold\" font-size=\""
      ++ fmtNum ((JsNum.ofInt 18).mul scale) ++ "\" fill=\"#111827\">"
      ++ jsOr props.title "Завантаження документів" ++ "</text>",
   "<text x=\"" ++ fmtNum contentX ++ "\" y=\"" ++ fmtNum y2
      ++ "\" font-family=\"e-Ukraine, Inter, sans-serif\" font-size=\""
      ++ fmtNum ((JsNum.ofInt 14).mul scale) ++ "\" fill=\"#374151\">"
      ++ jsOr props.subtitle (jsOr props.description "Додайте необхідні документи")
      ++ "</text>",
   "<rect x=\"" ++ fmtNum contentX ++ "\" y=\"" ++ fmtNum y3 ++ "\" width=\"" ++ fmtNum zoneW
      ++ "\" height=\"" ++ fmtNum zoneH ++ "\" rx=\"" ++ fmtNum ((JsNum.ofInt 16).mul scale)
      ++ "\" fill=\"#F5F8FA\" stroke=\"#D1D5DB\" stroke-width=\""
      ++ fmtNum ((JsNum.ofInt 2).mul scale) ++ "\" stroke-dasharray=\""
      ++ fmtNum ((JsNum.ofInt 8).mul scale) ++ " " ++ fmtNum ((JsNum.ofInt 8).mul scale)
      ++ "\"/>",
   "<path d=\"M" ++ fmtNum centerX ++ " " ++ fmtNum arrowY ++ " L" ++ fmtNum centerX ++ " "
      ++ fmtNum (arrowY.add ((JsNum.ofInt 12).mul scale)) ++ " M" ++ fmtNum centerX ++ " "
      ++ fmtNum arrowY ++ " L" ++ fmtNum (centerX.sub ((JsNum.ofInt 4).mul scale)) ++ " "
      ++ fmtNum (arrowY.add ((JsNum.ofInt 4).mul scale)) ++ " M" ++ fmtNum centerX ++ " "
      ++ fmtNum arrowY ++ " L" ++ fmtNum (centerX.add ((JsNum.ofInt 4).mul scale)) ++ " "
      ++ fmtNum (arrowY.add ((JsNum.ofInt 4).mul scale))
      ++ "\" stroke=\"#67C3F3\" stroke-width=\"" ++ fmtNum ((JsNum.ofInt 2).mul scale)
      ++ "\" stroke-linecap=\"round\" stroke-linejoin=\"round\"/>",
   "<text x=\"" ++ fmtNum centerX ++ "\" y=\""
      ++ fmtNum (centerY.add ((JsNum.ofInt 16).mul scale))
      ++ "\" text-anchor=\"middle\" font-family=\"e-Ukraine, Inter, sans-serif\" font-size=\""
      ++ fmtNum ((JsNum.ofInt 16).mul scale) ++ "\" fill=\"#6B7280\">"
      ++ jsOr props.buttonText "Додати файл" ++ "</text>",
   "<rect x=\"" ++ fmtNum contentX ++ "\" y=\"" ++ fmtNum btnY ++ "\" width=\"" ++ fmtNum zoneW
      ++ "\" height=\"" ++ fmtNum btnH ++ "\" rx=\"" ++ fmtNum ((JsNum.ofInt 16).mul scale)
      ++ "\" fill=\"#000000\"/>",
   "<text x=\"" ++ fmtNum centerX ++ "\" y=\""
      ++ fmtNum ((btnY.add (btnH.divNat 2)).add ((JsNum.ofInt 6).mul scale))
      ++ "\" text-anchor=\"middle\" font-family=\"e-Ukraine, Inter, sans-serif\" "
      ++ "font-weight=\"600\" font-size=\"" ++ fmtNum ((JsNum.ofInt 18).mul scale)
      ++ "\" fill=\"#FFFFFF\">Далі</text>",
   "</svg>"]

/-- `renderUploadScreen(props, scale)` (src/src/generators/vector-renderer.js
lines 424–480): validate the scale, then join the parts.  The method touches
no instance state. -/
def renderUploadScreen (props : Props) (scale : JsNum) : Except RenderError String :=
  match validateScale scale with
  | some e => .error e
  | none => .ok (outputOfTokens (uploadTokens props scale))

/-- The smart `VectorRenderer.render(props, scale)` (src/src/generators/
vector-renderer.js lines 501–508): if `props.buttonText || props.subtitle ||
props.description` is truthy, render the upload screen (state unchanged),
otherwise render the ID card. -/
def render (props : Props) (scale : JsNum) (st : State) :
    Except RenderError (String × State) :=
  if jsTruthy props.buttonText || jsTruthy props.subtitle || jsTruthy props.description then
    (renderUploadScreen props scale).map (fun out => (out, st))
  else
    renderDiiaIDCard props scale st

end VectorRenderer

namespace DomRenderer

/-- The token list of `DomRenderer.render(props, scale)`
(src/src/generators/dom-renderer.js lines 36–65): the template literal split
at its interpolations, whitespace transcribed exactly.  `injectStyles()`
mutates only `document.head` and does not affect the returned string. -/
def domTokens (props : Props) (scale : JsNum) : List String :=
  ["\n      <div class=\"diia-screen-container\" style=\"transform: scale(",
   fmtNum scale,
   "); transform-origin: top left;\">\n        <div class=\"diia-card\">\n          "
     ++ "<div class=\"title-section\" style=\"margin-bottom: 8px;\">\n            "
     ++ "<h2 class=\"title-text\">",
   jsOr props.title "Завантаження документів",
   "</h2>\n          </div>\n          "
     ++ "<div class=\"description-section\" style=\"margin-bottom: 24px;\">\n            "
     ++ "<p class=\"description-text\">",
   jsOr props.description "Додайте необхідні документи",
   "</p>\n          </div>\n          "
     ++ "<div class=\"upload-zone-wrapper\" style=\"margin-bottom: 32px; flex: 1; "
     ++ "display: flex; align-items: flex-start;\">\n            "
     ++ "<label class=\"upload-zone\">\n              "
     ++ "<div class=\"upload-icon\" style=\"width: 24px; height: 24px; "
     ++ "margin-bottom: 8px; position: relative;\">\n                "
     ++ "<svg width=\"24\" height=\"24\" viewBox=\"0 0 24 24\" fill=\"none\" "
     ++ "xmlns=\"http://www.w3.org/2000/svg\">\n                  "
     ++ "<path d=\"M12 4L12 16M12 4L8 8M12 4L16 8\" stroke=\"#67C3F3\" stroke-width=\"2\" "
     ++ "stroke-linecap=\"round\" stroke-linejoin=\"round\"/>\n                "
     ++ "</svg>\n              </div>\n              "
     ++ "<span class=\"upload-text\" style=\"font-size: 16px; color: #6B7280; "
     ++ "text-align: center;\">Додати файл</span>\n              "
     ++ "<input type=\"file\" class=\"file-input-hidden\" style=\"display: none; "
     ++ "position: absolute; opacity: 0; width: 100%; height: 100%; cursor: pointer;\" "
     ++ "multiple />\n            </label>\n          </div>\n          "
     ++ "<div class=\"button-wrapper\">\n            "
     ++ "<button class=\"next-button\">Далі</button>\n          </div>\n        "
     ++ "</div>\n      </div>\n    "]

/-- `DomRenderer.render(props, scale)` (src/src/generators/dom-renderer.js
lines 36–65): always returns the interpolated template string; no validation
of `scale` is performed. -/
def render (props : Props) (scale : JsNum) : String := outputOfTokens (domTokens props scale)

/-- `DomRenderer.render` lifted to the same error type as the vector
renderer, to state rejection claims uniformly: the source never throws, so
this is always `.ok`. -/
def renderExc (props : Props) (scale : JsNum) : Except VectorRenderer.RenderError String :=
  .ok (render props scale)

end DomRenderer

namespace FigmaSimulator

/-!
JSON values as built by `FigmaSimulator.render` (src/src/generators/
figma-simulator.js lines 19–181).  Arrays and objects carry their own list
types so that all recursion below is structural (and therefore evaluates in
the kernel).
-/

mutual

inductive Json where
  | str (s : String)
  | num (q : JsNum)
  | bool (b : Bool)
  | arr (elems : JArr)
  | obj (fields : JObj)

inductive JArr where
  | nil
  | cons (hd : Json) (tl : JArr)

inductive JObj where
  | nil
  | cons (key : String) (val : Json) (tl : JObj)

end

/-- Build a `JArr` from a list literal. -/
def JArr.ofList : List Json → JArr
  | [] => .nil
  | v :: rest => .cons v (JArr.ofList rest)

/-- Build a `JObj` from a list literal. -/
def JObj.ofList : List (String × Json) → JObj
  | [] => .nil
  | (k, v) :: rest => .cons k v (JObj.ofList rest)

/-- `JSON.stringify` string quoting.  None of the strings serialized by the
simulator contain characters that require escaping; the standard escapes are
implemented for totality. -/
def jsonEscapeChar (c : Char) : String :=
  if c = '"' then "\\\""
  else if c = '\\' then "\\\\"
  else if c = '\n' then "\\n"
  else if c = '\t' then "\\t"
  else if c = '\r' then "\\r"
  else if c.toNat < 0x20 then "\\u00" ++ natDecimalString c.toNat 0
  else String.mk [c]

/-- Quote a string as a JSON string literal. -/
def jsonQuote (s : String) : String :=
  "\"" ++ outputOfTokens (s.data.map jsonEscapeChar) ++ "\""

/-- The two-space-per-level indentation of `JSON.stringify(value, null, 2)`. -/
def jsonIndent (level : Nat) : String := String.mk (List.replicate (2 * level) ' ')

/-!
`JSON.stringify(value, null, 2)` as a token list: objects and arrays open on
the current line, print each entry on its own line indented one level deeper,
and close on a fresh line at the current level; empty containers print inline.
-/

mutual

def Json.toTokens : Json → Nat → List String
  | .str s, _ => [jsonQuote s]
  | .num q, _ => [fmtNum q]
  | .bool b, _ => [if b then "true" else "false"]
  | .arr .nil, _ => ["[]"]
  | .arr (.cons v rest), level =>
    ["[", "\n"] ++ JArr.toTokens (.cons v rest) (level + 1) ++ ["\n", jsonIndent level, "]"]
  | .obj .nil, _ => ["\x7b\x7d"]
  | .obj (.cons k v rest), level =>
    ["\x7b", "\n"] ++ JObj.toTokens (.cons k v rest) (level + 1)
      ++ ["\n", jsonIndent level, "\x7d"]

def JArr.toTokens : JArr → Nat → List String
  | .nil, _ => []
  | .cons v .nil, level => jsonIndent level :: Json.toTokens v level
  | .cons v (.cons w rest), level =>
    (jsonIndent level :: Json.toTokens v level) ++ [",", "\n"]
      ++ JArr.toTokens (.cons w rest) level

def JObj.toTokens : JObj → Nat → List String
  | .nil, _ => []
  | .cons k v .nil, level => jsonIndent level :: jsonQuote k :: ": " :: Json.toTokens v level
  | .cons k v (.cons k2 v2 rest), level =>
    (jsonIndent level :: jsonQuote k :: ": " :: Json.toTokens v level) ++ [",", "\n"]
      ++ JObj.toTokens (.cons k2 v2 rest) level

end

/-- The ambient clock at render time: what `new Date().toISOString()` and
`Date.now()` return during the call (the clock is assumed not to tick within
a single render). -/
structure JsClock where
  iso : String
  epochMs : Nat
deriving DecidableEq

/-- A solid-color fill `\x7b type: "SOLID", color: \x7b r, g, b \x7d \x7d`. -/
def solidFill (r g b : JsNum) : Json :=
  .obj (JObj.ofList
    [("type", .str "SOLID"),
     ("color", .obj (JObj.ofList [("r", .num r), ("g", .num g), ("b", .num b)]))])

/-- The `style` object of the TEXT layers 3 and 4 (full style with vertical
alignment, letter spacing and percent line height). -/
def fullTextStyle (fontWeight fontSize : JsNum) (fill : Json) : Json :=
  .obj (JObj.ofList
    [("fontFamily", .str "e-Ukraine"),
     ("fontWeight", .num fontWeight),
     ("fontSize", .num fontSize),
     ("textAlignHorizontal", .str "LEFT"),
     ("textAlignVertical", .str "TOP"),
     ("letterSpacing", .num (JsNum.ofInt 0)),
     ("lineHeight", .obj (JObj.ofList
       [("value", .num (JsNum.ofInt 140)), ("unit", .str "PERCENT")])),
     ("fills", .arr (JArr.ofList [fill]))])

/-- The `style` object of the TEXT layers 6 and 8 (centered, no vertical
alignment fields). -/
def centerTextStyle (fontWeight fontSize : JsNum) (fill : Json) : Json :=
  .obj (JObj.ofList
    [("fontFamily", .str "e-Ukraine"),
     ("fontWeight", .num fontWeight),
     ("fontSize", .num fontSize),
     ("textAlignHorizontal", .str "CENTER"),
     ("fills", .arr (JArr.ofList [fill]))])

/-- `layer_3` (Title TEXT). -/
def layer3 (props : Props) : Json :=
  .obj (JObj.ofList
    [("id", .str "layer_3"),
     ("type", .str "TEXT"),
     ("name", .str "Title"),
     ("x", .num (JsNum.ofInt 24)),
     ("y", .num (JsNum.ofInt 48)),
     ("width", .num (JsNum.ofInt 296)),
     ("height", .num (JsNum.ofInt 24)),
     ("characters", .str (jsOr props.title "Завантаження документів")),
     ("style", fullTextStyle (JsNum.ofInt 700) (JsNum.ofInt 18)
       (solidFill ⟨67, 1000⟩ ⟨94, 1000⟩ ⟨153, 1000⟩))])

/-- `layer_4` (Description TEXT). -/
def layer4 (props : Props) : Json :=
  .obj (JObj.ofList
    [("id", .str "layer_4"),
     ("type", .str "TEXT"),
     ("name", .str "Description"),
     ("x", .num (JsNum.ofInt 24)),
     ("y", .num (JsNum.ofInt 80)),
     ("width", .num (JsNum.ofInt 296)),
     ("height", .num (JsNum.ofInt 20)),
     ("characters", .str (jsOr props.description "Додайте необхідні документи")),
     ("style", fullTextStyle (JsNum.ofInt 400) (JsNum.ofInt 14)
       (solidFill ⟨216, 1000⟩ ⟨255, 1000⟩ ⟨318, 1000⟩))])

/-- `layer_6` (Upload Label TEXT). -/
def layer6 : Json :=
  .obj (JObj.ofList
    [("id", .str "layer_6"),
     ("type", .str "TEXT"),
     ("name", .str "Upload Label"),
     ("x", .num (JsNum.ofInt 106)),
     ("y", .num (JsNum.ofInt 52)),
     ("width", .num (JsNum.ofInt 100)),
     ("height", .num (JsNum.ofInt 16)),
     ("characters", .str "Додати файл"),
     ("style", centerTextStyle (JsNum.ofInt 400) (JsNum.ofInt 16)
       (solidFill ⟨420, 1000⟩ ⟨451, 1000⟩ ⟨502, 1000⟩))])

/-- `layer_5` (Upload Zone FRAME with dashed stroke). -/
def layer5 : Json :=
  .obj (JObj.ofList
    [("id", .str "layer_5"),
     ("type", .str "FRAME"),
     ("name", .str "Upload Zone"),
     ("x", .num (JsNum.ofInt 24)),
     ("y", .num (JsNum.ofInt 124)),
     ("width", .num (JsNum.ofInt 312)),
     ("height", .num (JsNum.ofInt 120)),
     ("fills", .arr (JArr.ofList [solidFill ⟨961, 1000⟩ ⟨973, 1000⟩ ⟨980, 1000⟩])),
     ("strokes", .arr (JArr.ofList
       [.obj (JObj.ofList
         [("type", .str "SOLID"),
          ("color", .obj (JObj.ofList
            [("r", .num ⟨820, 1000⟩), ("g", .num ⟨835, 1000⟩), ("b", .num ⟨863, 1000⟩)])),
          ("strokeWeight", .num (JsNum.ofInt 2)),
          ("strokeDashes", .arr (JArr.ofList
            [.num (JsNum.ofInt 8), .num (JsNum.ofInt 8)]))])])),
     ("cornerRadius", .num (JsNum.ofInt 16)),
     ("children", .arr (JArr.ofList [layer6]))])

/-- `layer_8` (Button Label TEXT). -/
def layer8 : Json :=
  .obj (JObj.ofList
    [("id", .str "layer_8"),
     ("type", .str "TEXT"),
     ("name", .str "Button Label"),
     ("x", .num (JsNum.ofInt 131)),
     ("y", .num (JsNum.ofInt 20)),
     ("width", .num (JsNum.ofInt 50)),
     ("height", .num (JsNum.ofInt 18)),
     ("characters", .str "Далі"),
     ("style", centerTextStyle (JsNum.ofInt 600) (JsNum.ofInt 18)
       (solidFill (JsNum.ofInt 1) (JsNum.ofInt 1) (JsNum.ofInt 1)))])

/-- `layer_7` (Next Button RECTANGLE). -/
def layer7 : Json :=
  .obj (JObj.ofList
    [("id", .str "layer_7"),
     ("type", .str "RECTANGLE"),
     ("name", .str "Next Button"),
     ("x", .num (JsNum.ofInt 24)),
     ("y", .num (JsNum.ofInt 276)),
     ("width", .num (JsNum.ofInt 312)),
     ("height", .num (JsNum.ofInt 56)),
     ("fills", .arr (JArr.ofList [solidFill (JsNum.ofInt 0) (JsNum.ofInt 0) (JsNum.ofInt 0)])),
     ("cornerRadius", .num (JsNum.ofInt 16)),
     ("children", .arr (JArr.ofList [layer8]))])

/-- `layer_2` (Card Background RECTANGLE holding layers 3, 4, 5 and 7). -/
def layer2 (props : Props) : Json :=
  .obj (JObj.ofList
    [("id", .str "layer_2"),
     ("type", .str "RECTANGLE"),
     ("name", .str "Card Background"),
     ("x", .num (JsNum.ofInt 8)),
     ("y", .num (JsNum.ofInt 16)),
     ("width", .num (JsNum.ofInt 344)),
     ("height", .num (JsNum.ofInt 648)),
     ("fills", .arr (JArr.ofList [solidFill (JsNum.ofInt 1) (JsNum.ofInt 1) (JsNum.ofInt 1)])),
     ("cornerRadius", .num (JsNum.ofInt 24)),
     ("children", .arr (JArr.ofList [layer3 props, layer4 props, layer5, layer7]))])

/-- `layer_1` (Screen Container FRAME). -/
def layer1 (props : Props) : Json :=
  .obj (JObj.ofList
    [("id", .str "layer_1"),
     ("type", .str "FRAME"),
     ("name", .str "Screen Container"),
     ("x", .num (JsNum.ofInt 0)),
     ("y", .num (JsNum.ofInt 0)),
     ("width", .num (JsNum.ofInt 360)),
     ("height", .num (JsNum.ofInt 680)),
     ("fills", .arr (JArr.ofList [solidFill ⟨886, 1000⟩ ⟨925, 1000⟩ ⟨957, 1000⟩])),
     ("children", .arr (JArr.ofList [layer2 props]))])

/-- One `_internalCache` entry (`cacheId`, `timestamp: Date.now()`, bloat
payload). -/
def cacheEntry (clock : JsClock) (i : Nat) : Json :=
  .obj (JObj.ofList
    [("cacheId", .str ("cache_" ++ toString i)),
     ("timestamp", .num (JsNum.ofNat clock.epochMs)),
     ("data", .str "unused_metadata_for_bloat_simulation")])

/-- The `mockExport` object literal of `FigmaSimulator.render`
(src/src/generators/figma-simulator.js lines 21–166), transcribed field by
field in source order.  JavaScript parses the decimal literals into binary64
before printing, so `0.980` serializes as `"0.98"` (handled by `fmtNum`
normalization). -/
def mockExport (props : Props) (clock : JsClock) : Json :=
  .obj (JObj.ofList
    [("version", .str "1.0"),
     ("metadata", .obj (JObj.ofList
       [("tool", .str "Figma"),
        ("exportDate", .str clock.iso),
        ("artboardName", .str (jsOr props.title "Upload Screen")),
        ("width", .num (JsNum.ofInt 360)),
        ("height", .num (JsNum.ofInt 680))])),
     ("layers", .arr (JArr.ofList [layer1 props])),
     ("exportSettings", .obj (JObj.ofList
       [("format", .str "JSON"),
        ("includeMetadata", .bool true),
        ("includeStyles", .bool true),
        ("includeAssets", .bool true),
        ("compressed", .bool false)])),
     ("_internalCache", .arr (JArr.ofList ((List.range 100).map (cacheEntry clock))))])

/-- `FigmaSimulator.render(props)` (src/src/generators/figma-simulator.js
lines 19–181): `JSON.stringify(mockExport, null, 2)`.  The output depends on
the ambient clock through `metadata.exportDate` (`new Date().toISOString()`)
and the 100 `_internalCache` timestamps (`Date.now()`); the clock enters the
embedding as an explicit argument. -/
def render (props : Props) (clock : JsClock) : String :=
  outputOfTokens (Json.toTokens (mockExport props clock) 0)

end FigmaSimulator

namespace VectorRenderer

/-- The label and value y-positions emitted by the data-fields loop of
`renderDiiaIDCard`, generated by the same cursor recursion as
`cardFieldsTokens`: the label sits at `dataY`, the value at
`dataY + 12·scale`, and the cursor advances by `12·scale + 18·scale` per
field. -/
def cardFieldYPositions (scale : JsNum) : JsNum → Nat → List JsNum
  | _, 0 => []
  | dataY, n + 1 =>
    dataY :: dataY.add ((JsNum.ofInt 12).mul scale) ::
      cardFieldYPositions scale
        ((dataY.add ((JsNum.ofInt 12).mul scale)).add ((JsNum.ofInt 18).mul scale)) n

/-- Every numeric linear dimension (position, size, font-size, stroke width)
interpolated into the ID-card output tokens, in token order, excluding only
the three flag-half-derived values shown non-uniform by the counterexample:
`flagHalfH = Math.round(12·scale)` (blue flag-rect height), `flagY +
flagHalfH` (yellow flag-rect y) and `flagH − flagHalfH` (yellow flag-rect
height).  A dimension emitted several times as the same expression (the card
rectangle appears in the clip path, the card and the hologram overlay; the
`10·scale` font size styles both the subtitle and the field values; `18·scale`
sizes the logo) is listed once.  The hologram-gradient stop positions are
percentage offsets and the drop-shadow filter parameters (`dx="0" dy="4"
stdDeviation="8"`) are fixed effect constants of the template: neither is a
position, size, font size or stroke width of the layout.  The four indexed
families at the end enumerate the security-pattern line abscissas
(`k·spacing` and `k·spacing − spacing` for every emitted `k`) and the QR
square corner coordinates (`qrX + j·pixelSize`, `qrY + i·pixelSize` for every
loop index). -/
def cardAllLinearDims (s : JsNum) : List JsNum :=
  let L := cardLayout s
  let spacing := (JsNum.ofInt 20).mul s
  let strokeWidth := JsNum.divNat s 2
  let pixelSize := JsNum.divNat ((JsNum.ofInt 60).mul s) 21
  [L.w, L.h, L.p, L.r,
   L.cardX, L.cardY, L.cardW, L.cardH, L.cardR,
   spacing, strokeWidth,
   L.flagX, L.flagY, L.flagW, L.flagH,
   L.titleX, L.titleY, (JsNum.ofInt 14).mul s,
   L.titleY.add ((JsNum.ofInt 16).mul s), (JsNum.ofInt 10).mul s,
   L.photoX, L.photoY, L.photoR, (JsNum.ofInt 2).mul s,
   L.photoY.add ((JsNum.ofInt 5).mul s), (JsNum.ofInt 40).mul s,
   L.dataX, L.dataY0, (JsNum.ofInt 7).mul s,
   L.qrX, L.qrY, L.qrSize, pixelSize, pixelSize.neg,
   L.logoX, L.logoY, (JsNum.ofInt 18).mul s,
   L.cardX.add (L.cardW.divNat 2), (L.cardY.add L.cardH).sub ((JsNum.ofInt 12).mul s),
   (JsNum.ofInt 8).mul s]
  ++ cardFieldYPositions s L.dataY0 5
  ++ (List.range (patternIters L.cardW spacing)).map (fun k => (JsNum.ofNat k).mul spacing)
  ++ (List.range (patternIters L.cardW spacing)).map
      (fun k => ((JsNum.ofNat k).mul spacing).sub spacing)
  ++ (List.range 21).map (fun j => L.qrX.add ((JsNum.ofNat j).mul pixelSize))
  ++ (List.range 8).map (fun i => L.qrY.add ((JsNum.ofNat i).mul pixelSize))

/-- Every numeric linear dimension (position, size, font-size, stroke width,
dash length) interpolated into the upload-screen output tokens, in token
order, with the same local bindings as `uploadTokens`.  Expressions emitted
more than once (`24·scale` rounds both the background and the card,
`16·scale` rounds the zone and the button and sizes the add-file text,
`2·scale` strokes the zone and the arrow, `18·scale` sizes the title and the
button label, `8·scale` is both dash components) are listed once; every
dimension of this screen is a constant multiple of the scale. -/
def uploadAllLinearDims (s : JsNum) : List JsNum :=
  let width := (JsNum.ofInt 360).mul s
  let height := (JsNum.ofInt 680).mul s
  let p := (JsNum.ofInt 16).mul s
  let cardY := (JsNum.ofInt 16).mul s
  let cardX := (JsNum.ofInt 8).mul s
  let cardW := width.sub ((JsNum.ofInt 16).mul s)
  let cardH := height.sub ((JsNum.ofInt 32).mul s)
  let contentX := cardX.add p
  let y1 := cardY.add ((JsNum.ofInt 32).mul s)
  let y2 := y1.add ((JsNum.ofInt 24).mul s)
  let y3 := y2.add ((JsNum.ofInt 32).mul s)
  let zoneH := (JsNum.ofInt 120).mul s
  let zoneW := cardW.sub (p.mul (JsNum.ofInt 2))
  let centerX := contentX.add (zoneW.divNat 2)
  let centerY := y3.add (zoneH.divNat 2)
  let arrowY := centerY.sub ((JsNum.ofInt 12).mul s)
  let btnH := (JsNum.ofInt 56).mul s
  let btnY := ((cardY.add cardH).sub btnH).sub p
  [width, height, (JsNum.ofInt 24).mul s,
   cardX, cardY, cardW, cardH,
   contentX, y1, (JsNum.ofInt 18).mul s,
   y2, (JsNum.ofInt 14).mul s,
   y3, zoneW, zoneH, (JsNum.ofInt 16).mul s, (JsNum.ofInt 2).mul s, (JsNum.ofInt 8).mul s,
   centerX, arrowY, arrowY.add ((JsNum.ofInt 12).mul s),
   centerX.sub ((JsNum.ofInt 4).mul s), arrowY.add ((JsNum.ofInt 4).mul s),
   centerX.add ((JsNum.ofInt 4).mul s),
   centerY.add ((JsNum.ofInt 16).mul s), (JsNum.ofInt 16).mul s,
   btnY, btnH, (btnY.add (btnH.divNat 2)).add ((JsNum.ofInt 6).mul s)]

/-- Result of rendering the ID card with default props at scale 1 on a fresh
renderer (the spec scenario input). -/
def idCardDefaultResult : Except RenderError (String × State) :=
  renderDiiaIDCard defaultProps (JsNum.ofInt 1) initialState

/-- Output string of the default-props, scale-1 ID card render. -/
def idCardDefaultOutput : String :=
  match idCardDefaultResult with
  | .ok (out, _) => out
  | .error _ => ""

/-- Whether the default-props, scale-1 ID card render succeeded. -/
def idCardDefaultOk : Bool :=
  match idCardDefaultResult with
  | .ok _ => true
  | .error _ => false

end VectorRenderer

/-! General lemmas about the measurement primitives. -/

/-- Discriminator for `Except` results (used to state that a call returns
normally instead of throwing). -/
def exceptIsOk : Except ε α → Bool
  | .ok _ => true
  | .error _ => false

/-- Byte size of a joined token list is the sum of the tokens' byte sizes. -/
theorem utf8Len_outputOfTokens (l : List String) :
    utf8Len (outputOfTokens l) = utf8LenParts l := by
  simp only [utf8Len, outputOfTokens, utf8LenParts, List.map_flatten, List.sum_flatten,
    List.map_map]
  rfl

/-- The UTF-8 encoding of one character occupies exactly `utf8CharLen` bytes. -/
theorem utf8EncodeChar_length (c : Char) :
    (utf8EncodeChar c).length = utf8CharLen c := by
  unfold utf8EncodeChar utf8CharLen
  split_ifs <;> rfl

/-- The byte size reported by the benchmark engine is the per-character UTF-8
size sum. -/
theorem calculatePayload_eq_utf8Len (s : String) :
    BenchmarkEngine.calculatePayload s = utf8Len s := by
  simp only [BenchmarkEngine.calculatePayload, utf8Encode, utf8Len, List.length_flatten,
    List.map_map]
  have h : List.map (List.length ∘ utf8EncodeChar) s.data = List.map utf8CharLen s.data :=
    List.map_congr_left (fun c _ => utf8EncodeChar_length c)
  rw [h]

/-- Ceiling of `n / 4` over ℚ agrees with the natural-number formula
`(n + 3) / 4`. -/
theorem ceil_quarter (n : ℕ) : ⌈(n : ℚ) / 4⌉₊ = (n + 3) / 4 := by
  apply le_antisymm
  · rw [Nat.ceil_le, div_le_iff₀ (by norm_num : (0:ℚ) < 4)]
    exact_mod_cast (by omega : n ≤ ((n + 3) / 4) * 4)
  · rcases Nat.eq_zero_or_pos ((n + 3) / 4) with h0 | hpos
    · omega
    · have hlt : (n + 3) / 4 - 1 < ⌈(n : ℚ) / 4⌉₊ := by
        rw [Nat.lt_ceil, lt_div_iff₀ (by norm_num : (0:ℚ) < 4)]
        exact_mod_cast (by omega : ((n + 3) / 4 - 1) * 4 < n)
      omega

/-- A string whose UTF-16 code units are all single (no supplementary-plane
character) has as many code units as characters. -/
theorem utf16Len_eq_length_of_bmp (s : String)
    (h : ∀ c ∈ s.data, c.toNat < 0x10000) : utf16Len s = s.length := by
  unfold utf16Len
  have : ∀ (l : List Char), (∀ c ∈ l, c.toNat < 0x10000) →
      (l.map (fun c => if c.toNat < 0x10000 then 1 else 2)).sum = l.length := by
    intro l
    induction l with
    | nil => intro _; rfl
    | cons c rest ih =>
      intro hall
      have hc := hall c (by simp)
      simp only [List.map_cons, List.sum_cons, if_pos hc, List.length_cons]
      rw [ih (fun d hd => hall d (by simp [hd]))]
      omega
  rw [this s.data h]
  rfl

/-! Lemmas about the vector renderer pattern cache and render determinism. -/

namespace VectorRenderer

theorem cacheLookup_append_self (key : String) (c : List (String × String)) (v : String)
    (h : cacheLookup key c = none) : cacheLookup key (c ++ [(key, v)]) = some v := by
  induction c with
  | nil => simp [cacheLookup]
  | cons p rest ih =>
    obtain ⟨k', v'⟩ := p
    rw [List.cons_append]
    unfold cacheLookup at h ⊢
    by_cases hk : k' = key
    · simp [hk] at h
    · simp only [if_neg hk] at h ⊢
      exact ih h

theorem cacheLookup_evict (key : String) (c : List (String × String))
    (h : cacheLookup key c = none) : cacheLookup key (cacheEvictOldest c) = none := by
  cases c with
  | nil => rfl
  | cons p rest =>
    obtain ⟨k', v'⟩ := p
    unfold cacheLookup at h
    by_cases hk : k' = key
    · simp [hk] at h
    · simpa [cacheEvictOldest] using (by simpa [if_neg hk] using h : cacheLookup key rest = none)

theorem generateSecurityPattern_tilt (w h s : JsNum) (st : State) :
    (generateSecurityPattern w h s st).2.tiltX = st.tiltX ∧
      (generateSecurityPattern w h s st).2.tiltY = st.tiltY := by
  unfold generateSecurityPattern
  cases hl : cacheLookup ("pattern_" ++ fmtNum w ++ "_" ++ fmtNum h ++ "_" ++ fmtNum s)
      st.patternCache <;> simp [hl]

theorem generateSecurityPattern_stable (w h s : JsNum) (st st' : State)
    (hc : st'.patternCache = (generateSecurityPattern w h s st).2.patternCache) :
    (generateSecurityPattern w h s st').1 = (generateSecurityPattern w h s st).1 := by
  unfold generateSecurityPattern at hc ⊢
  cases hl : cacheLookup ("pattern_" ++ fmtNum w ++ "_" ++ fmtNum h ++ "_" ++ fmtNum s)
      st.patternCache with
  | some v =>
    simp only [hl] at hc ⊢
    simp only [hc, hl]
  | none =>
    simp only [hl] at hc ⊢
    have h1 : cacheLookup ("pattern_" ++ fmtNum w ++ "_" ++ fmtNum h ++ "_" ++ fmtNum s)
        (if 50 ≤ st.patternCache.length then cacheEvictOldest st.patternCache
          else st.patternCache) = none := by
      split
      · exact cacheLookup_evict _ _ hl
      · exact hl
    have h2 := cacheLookup_append_self
      ("pattern_" ++ fmtNum w ++ "_" ++ fmtNum h ++ "_" ++ fmtNum s) _
      (securityPatternString w h s) h1
    simp only [hc, h2]

theorem renderDiiaIDCard_twice (p : Props) (s : JsNum) (st : State) :
    match renderDiiaIDCard p s st with
    | .error _ => True
    | .ok (o1, st1) =>
      match renderDiiaIDCard p s st1 with
      | .error _ => True
      | .ok (o2, _) => o2 = o1 := by
  cases hv : validateScale s with
  | some e =>
    have h1 : renderDiiaIDCard p s st = .error e := by
      unfold renderDiiaIDCard; rw [hv]
    simp [h1]
  | none =>
    have h1 : renderDiiaIDCard p s st =
        .ok (outputOfTokens (cardTokens p s
              (generateSecurityPattern (cardLayout s).cardW (cardLayout s).cardH s
                { st with currentY := JsNum.ofInt 0, rendersCount := st.rendersCount + 1 }).2.tiltX
              (generateSecurityPattern (cardLayout s).cardW (cardLayout s).cardH s
                { st with currentY := JsNum.ofInt 0, rendersCount := st.rendersCount + 1 }).2.tiltY
              (generateSecurityPattern (cardLayout s).cardW (cardLayout s).cardH s
                { st with currentY := JsNum.ofInt 0, rendersCount := st.rendersCount + 1 }).1),
            (generateSecurityPattern (cardLayout s).cardW (cardLayout s).cardH s
              { st with currentY := JsNum.ofInt 0, rendersCount := st.rendersCount + 1 }).2) := by
      unfold renderDiiaIDCard; rw [hv]
    generalize hr1 : generateSecurityPattern (cardLayout s).cardW (cardLayout s).cardH s
      { st with currentY := JsNum.ofInt 0, rendersCount := st.rendersCount + 1 } = r1 at h1
    have h2 : renderDiiaIDCard p s r1.2 =
        .ok (outputOfTokens (cardTokens p s
              (generateSecurityPattern (cardLayout s).cardW (cardLayout s).cardH s
                { r1.2 with currentY := JsNum.ofInt 0, rendersCount := r1.2.rendersCount + 1 }).2.tiltX
              (generateSecurityPattern (cardLayout s).cardW (cardLayout s).cardH s
                { r1.2 with currentY := JsNum.ofInt 0, rendersCount := r1.2.rendersCount + 1 }).2.tiltY
              (generateSecurityPattern (cardLayout s).cardW (cardLayout s).cardH s
                { r1.2 with currentY := JsNum.ofInt 0, rendersCount := r1.2.rendersCount + 1 }).1),
            (generateSecurityPattern (cardLayout s).cardW (cardLayout s).cardH s
              { r1.2 with currentY := JsNum.ofInt 0, rendersCount := r1.2.rendersCount + 1 }).2) := by
      unfold renderDiiaIDCard; rw [hv]
    generalize hr2 : generateSecurityPattern (cardLayout s).cardW (cardLayout s).cardH s
      { r1.2 with currentY := JsNum.ofInt 0, rendersCount := r1.2.rendersCount + 1 } = r2 at h2
    have hstable : r2.1 = r1.1 := by
      rw [← hr1, ← hr2]
      apply generateSecurityPattern_stable
      rw [hr1]
    have htilt1 : r1.2.tiltX = st.tiltX ∧ r1.2.tiltY = st.tiltY := by
      rw [← hr1]
      exact generateSecurityPattern_tilt _ _ _ _
    have htilt2 : r2.2.tiltX = r1.2.tiltX ∧ r2.2.tiltY = r1.2.tiltY := by
      rw [← hr2]
      exact generateSecurityPattern_tilt _ _ _ _
    rw [h1]
    simp only [h2]
    rw [hstable, htilt2.1, htilt2.2, htilt1.1, htilt1.2]

theorem render_twice_eq (p : Props) (s : JsNum) (st : State) :
    match render p s st with
    | .error _ => True
    | .ok (o1, st1) =>
      match render p s st1 with
      | .error _ => True
      | .ok (o2, _) => o2 = o1 := by
  unfold render
  by_cases hcond : (jsTruthy p.buttonText || jsTruthy p.subtitle || jsTruthy p.description) = true
  · simp only [hcond, if_true]
    cases hr : renderUploadScreen p s with
    | error e => simp [hr, Except.map]
    | ok out => simp [hr, Except.map]
  · simp only [Bool.not_eq_true] at hcond
    simp only [hcond, Bool.false_eq_true, if_false]
    exact renderDiiaIDCard_twice p s st

end VectorRenderer

/-! Lemmas relating the comparison helpers to rational values. -/

namespace VectorRenderer

theorem validateScale_of_nonpos (s : JsNum) (hwf : s.WF) (hle : s.toRat ≤ 0) :
    validateScale s =
      some (.rangeError ("Scale must be between 0 and 100, got " ++ fmtNum s)) := by
  have hd : (0 : ℚ) < (s.d : ℚ) := by exact_mod_cast hwf
  have hn : s.n ≤ 0 := by
    by_contra hpos
    push_neg at hpos
    have h1 : 0 < s.toRat := by
      unfold JsNum.toRat
      apply div_pos _ hd
      exact_mod_cast hpos
    exact absurd hle (not_le.mpr h1)
  have hb : s.le (JsNum.ofInt 0) = true := by
    unfold JsNum.le JsNum.ofInt
    simp only [decide_eq_true_eq]
    simpa using hn
  unfold validateScale
  rw [hb]
  simp

end VectorRenderer

/-- Bounds of the clamped score for any inputs: between 10 (the raw score
cannot go lower) and 100. -/
theorem calculateAIScore_bounds (tokens elements : Nat) (hasFormulas : Bool) :
    10 ≤ ExportEngine.calculateAIScore tokens elements hasFormulas ∧
      ExportEngine.calculateAIScore tokens elements hasFormulas ≤ 100 := by
  have hraw : 10 ≤ ExportEngine.calculateAIScoreRaw tokens elements hasFormulas := by
    unfold ExportEngine.calculateAIScoreRaw
    split_ifs <;> norm_num
  constructor
  · exact le_trans (le_min (by norm_num) hraw) (le_max_right 0 _)
  · exact max_le (by norm_num) (min_le_left _ _)

/-! Claim theorems (C1–C10). -/

/-- C1, counterexample: the Figma simulator is not deterministic in the sense
of the claim — with identical props, two renders at different wall-clock
instants produce different output strings, because the serialized export
embeds `metadata.exportDate` and the `_internalCache` timestamps. -/
theorem figma_render_depends_on_clock :
    FigmaSimulator.render defaultProps ⟨"2025-01-01T00:00:00.000Z", 0⟩ ≠
      FigmaSimulator.render defaultProps ⟨"2025-01-02T00:00:00.000Z", 10⟩ :=
  fun h => absurd (congrArg (fun s => s.data.take 120) h) (by decide)

/-- C1, amended: rendering twice with identical props and scale produces
byte-identical output for the vector renderer (through its pattern cache and
statistics mutations) and for the markup/DOM renderer; the Figma simulator is
excluded because its output embeds the render-time clock. -/
theorem render_deterministic_vector_dom :
    (∀ (p : Props) (s : JsNum) (st : VectorRenderer.State),
      match VectorRenderer.render p s st with
      | .error _ => True
      | .ok (o1, st1) =>
        match VectorRenderer.render p s st1 with
        | .error _ => True
        | .ok (o2, _) => o2 = o1)
    ∧ (∀ (p : Props) (s : JsNum), DomRenderer.render p s = DomRenderer.render p s) :=
  ⟨VectorRenderer.render_twice_eq, fun _ _ => rfl⟩

/-- C2, counterexample: with default props at scale 1 the vector renderer
produces the ID card, whose UTF-8 byte size is strictly *larger* than the
markup renderer's output (the ID card embeds a security pattern and a QR
path; the DOM template renders the much smaller upload screen). -/
theorem idCard_larger_than_dom :
    VectorRenderer.idCardDefaultOk = true ∧
      BenchmarkEngine.calculatePayload (DomRenderer.render defaultProps (JsNum.ofInt 1)) <
        BenchmarkEngine.calculatePayload VectorRenderer.idCardDefaultOutput := by
  constructor
  · rfl
  · have hout : VectorRenderer.idCardDefaultOutput =
        outputOfTokens (VectorRenderer.cardTokens defaultProps (JsNum.ofInt 1)
          (JsNum.ofInt 0) (JsNum.ofInt 0)
          (VectorRenderer.securityPatternString
            (VectorRenderer.cardLayout (JsNum.ofInt 1)).cardW
            (VectorRenderer.cardLayout (JsNum.ofInt 1)).cardH (JsNum.ofInt 1))) := rfl
    rw [hout, calculatePayload_eq_utf8Len, calculatePayload_eq_utf8Len]
    unfold DomRenderer.render
    rw [utf8Len_outputOfTokens, utf8Len_outputOfTokens]
    decide

/-- C2, amended: the size comparison the spec intends holds when the two
renderers produce the same screen: the vector *upload screen* with default
props at scale 1 is strictly smaller (in UTF-8 bytes) than the markup
renderer's output for the same default props. -/
theorem uploadScreen_smaller_than_dom :
    ∃ out, VectorRenderer.renderUploadScreen defaultProps (JsNum.ofInt 1) = .ok out ∧
      BenchmarkEngine.calculatePayload out <
        BenchmarkEngine.calculatePayload (DomRenderer.render defaultProps (JsNum.ofInt 1)) := by
  refine ⟨outputOfTokens (VectorRenderer.uploadTokens defaultProps (JsNum.ofInt 1)), rfl, ?_⟩
  rw [calculatePayload_eq_utf8Len, calculatePayload_eq_utf8Len]
  unfold DomRenderer.render
  rw [utf8Len_outputOfTokens, utf8Len_outputOfTokens]
  decide

/-- C3, counterexample: the three flag-half-derived attribute values of the
ID card do not scale uniformly.  With `s1 = 1` and `s2 = 1.1`, the blue
flag-rect height `flagHalfH = Math.round(12·scale)` is 13 (not 13.2), the
yellow flag-rect y `flagY + flagHalfH` is 101 (not 101.2), and the yellow
flag-rect height `flagH − flagHalfH` is 13.4 (not 13.2).  (The same rounding
discrepancies occur in binary64: `Math.round(24 * 1.1 / 2) = 13`.) -/
theorem flagHalfH_breaks_uniform_scaling :
    (((VectorRenderer.cardLayout ⟨11, 10⟩).flagHalfH).toRat ≠
        ((⟨11, 10⟩ : JsNum).toRat / (JsNum.ofInt 1).toRat) *
          ((VectorRenderer.cardLayout (JsNum.ofInt 1)).flagHalfH).toRat) ∧
    (((VectorRenderer.cardLayout ⟨11, 10⟩).flagY.add
          (VectorRenderer.cardLayout ⟨11, 10⟩).flagHalfH).toRat ≠
        ((⟨11, 10⟩ : JsNum).toRat / (JsNum.ofInt 1).toRat) *
          ((VectorRenderer.cardLayout (JsNum.ofInt 1)).flagY.add
            (VectorRenderer.cardLayout (JsNum.ofInt 1)).flagHalfH).toRat) ∧
    (((VectorRenderer.cardLayout ⟨11, 10⟩).flagH.sub
          (VectorRenderer.cardLayout ⟨11, 10⟩).flagHalfH).toRat ≠
        ((⟨11, 10⟩ : JsNum).toRat / (JsNum.ofInt 1).toRat) *
          ((VectorRenderer.cardLayout (JsNum.ofInt 1)).flagH.sub
            (VectorRenderer.cardLayout (JsNum.ofInt 1)).flagHalfH).toRat) := by
  have e1 : (VectorRenderer.cardLayout ⟨11, 10⟩).flagHalfH = JsNum.ofInt 13 := by decide
  have e2 : (VectorRenderer.cardLayout (JsNum.ofInt 1)).flagHalfH = JsNum.ofInt 12 := by
    decide
  have e3 : ((VectorRenderer.cardLayout ⟨11, 10⟩).flagY.add
      (VectorRenderer.cardLayout ⟨11, 10⟩).flagHalfH) = ⟨101000, 1000⟩ := by decide
  have e4 : ((VectorRenderer.cardLayout (JsNum.ofInt 1)).flagY.add
      (VectorRenderer.cardLayout (JsNum.ofInt 1)).flagHalfH) = ⟨92, 1⟩ := by decide
  have e5 : ((VectorRenderer.cardLayout ⟨11, 10⟩).flagH.sub
      (VectorRenderer.cardLayout ⟨11, 10⟩).flagHalfH) = ⟨134, 10⟩ := by decide
  have e6 : ((VectorRenderer.cardLayout (JsNum.ofInt 1)).flagH.sub
      (VectorRenderer.cardLayout (JsNum.ofInt 1)).flagHalfH) = ⟨12, 1⟩ := by decide
  refine ⟨?_, ?_, ?_⟩
  · rw [e1, e2]
    unfold JsNum.toRat JsNum.ofInt
    norm_num
  · rw [e3, e4]
    unfold JsNum.toRat JsNum.ofInt
    norm_num
  · rw [e5, e6]
    unfold JsNum.toRat JsNum.ofInt
    norm_num

/-- Positive rational value of a well-formed `JsNum` forces a positive
numerator. -/
theorem JsNum.n_pos_of_toRat_pos (s : JsNum) (hwf : s.WF) (hp : 0 < s.toRat) :
    0 < s.n := by
  have hd : (0 : ℚ) < (s.d : ℚ) := by exact_mod_cast hwf
  unfold JsNum.toRat at hp
  rcases div_pos_iff.mp hp with ⟨ha, _⟩ | ⟨_, hb⟩
  · exact_mod_cast ha
  · exact absurd hd (not_lt.mpr hb.le)

/-- At every positive scale the security-pattern loop of the ID card runs
exactly `⌈328·s / (20·s)⌉ = ⌈16.4⌉ = 17` times. -/
theorem patternIters_cardW (s : JsNum) (hn : 0 < s.n) (hd : 0 < s.d) :
    VectorRenderer.patternIters (VectorRenderer.cardLayout s).cardW
      ((JsNum.ofInt 20).mul s) = 17 := by
  have hcw : (VectorRenderer.cardLayout s).cardW =
      ⟨328 * (s.n * (s.d : Int)), s.d * s.d⟩ := by
    simp only [VectorRenderer.cardLayout, JsNum.mul, JsNum.add, JsNum.sub, JsNum.neg,
      JsNum.ofInt, JsNum.mk.injEq]
    constructor
    · push_cast
      ring
    · ring
  have hdz : (0 : Int) < (s.d : Int) := by exact_mod_cast hd
  rw [hcw]
  unfold VectorRenderer.patternIters JsNum.mul JsNum.ofInt
  have hc1 : (0 : Int) < 20 * s.n := by positivity
  have hc2 : (0 : Int) < 328 * (s.n * (s.d : Int)) := by positivity
  rw [if_pos ⟨hc1, hc2⟩]
  have e1 : (328 * (s.n * (s.d : Int)) * ((1 * s.d : Nat) : Int)) =
      328 * (s.n * (s.d : Int) * (s.d : Int)) := by
    push_cast
    ring
  have e2 : ((20 * s.n) * ((s.d * s.d : Nat) : Int)) =
      20 * (s.n * (s.d : Int) * (s.d : Int)) := by
    push_cast
    ring
  simp only [e1, e2]
  have hm : (0 : Int) < s.n * (s.d : Int) * (s.d : Int) := by positivity
  generalize hmm : s.n * (s.d : Int) * (s.d : Int) = m at hm ⊢
  have hfd : Int.fdiv (-(328 * m)) (20 * m) = -17 := by
    rw [Int.fdiv_eq_ediv _ (by positivity)]
    have e3 : (-(328 * m)) = 12 * m + (-17) * (20 * m) := by ring
    rw [e3, Int.add_mul_ediv_right _ _ (by positivity : (0 : Int) < 20 * m).ne']
    rw [Int.ediv_eq_zero_of_lt (by positivity) (by nlinarith)]
    norm_num
  rw [hfd]
  rfl

set_option maxHeartbeats 4000000 in
/-- C3, amended: every numeric linear dimension (position, size, font-size,
stroke width) of the vector renderer's output — the full ID-card dimension
list including font sizes, stroke widths, the per-field y cursor, the
security-pattern abscissas and the QR pixel grid, and the full upload-screen
dimension list — scales by exactly `s2 / s1` between any two positive scales;
only the three flag-half-derived ID-card values excluded by
`cardAllLinearDims` (and refuted by the counterexample) deviate. -/
theorem vectorDims_scale_uniformly (s1 s2 : JsNum) (h1 : s1.WF) (h2 : s2.WF)
    (hp1 : 0 < s1.toRat) (hp2 : 0 < s2.toRat) :
    (VectorRenderer.cardAllLinearDims s2).map JsNum.toRat =
        ((VectorRenderer.cardAllLinearDims s1).map JsNum.toRat).map
          (· * (s2.toRat / s1.toRat)) ∧
      (VectorRenderer.uploadAllLinearDims s2).map JsNum.toRat =
        ((VectorRenderer.uploadAllLinearDims s1).map JsNum.toRat).map
          (· * (s2.toRat / s1.toRat)) := by
  have hd1 : ((s1.d : ℚ)) ≠ 0 := by
    simpa using (Nat.cast_pos.mpr h1).ne'
  have hd2 : ((s2.d : ℚ)) ≠ 0 := by
    simpa using (Nat.cast_pos.mpr h2).ne'
  have hn1 : ((s1.n : ℚ)) ≠ 0 := by
    intro h0
    rw [JsNum.toRat, h0, zero_div] at hp1
    exact lt_irrefl 0 hp1
  have hIter1 := patternIters_cardW s1 (JsNum.n_pos_of_toRat_pos s1 h1 hp1) h1
  have hIter2 := patternIters_cardW s2 (JsNum.n_pos_of_toRat_pos s2 h2 hp2) h2
  constructor
  · simp only [VectorRenderer.cardAllLinearDims]
    rw [hIter1, hIter2]
    simp only [List.map_append]
    congr 1
    · congr 1
      · congr 1
        · congr 1
          · congr 1
            · simp only [List.map, List.cons.injEq]
              and_intros <;>
                  (try simp only [VectorRenderer.cardLayout, JsNum.mul, JsNum.add, JsNum.sub,
                    JsNum.neg, JsNum.divNat, JsNum.ofInt, JsNum.toRat]) <;>
                  (try push_cast) <;> (try field_simp) <;> (try ring)
            · simp only [VectorRenderer.cardFieldYPositions, List.map, List.cons.injEq]
              and_intros <;>
                  (try simp only [VectorRenderer.cardLayout, JsNum.mul, JsNum.add, JsNum.sub,
                    JsNum.neg, JsNum.divNat, JsNum.ofInt, JsNum.toRat]) <;>
                  (try push_cast) <;> (try field_simp) <;> (try ring)
          · simp only [List.map_map]
            apply List.map_congr_left
            intro k _
            simp only [Function.comp, VectorRenderer.cardLayout, JsNum.mul, JsNum.add,
              JsNum.sub, JsNum.neg, JsNum.divNat, JsNum.ofInt, JsNum.ofNat, JsNum.toRat]
            push_cast
            field_simp
            ring
        · simp only [List.map_map]
          apply List.map_congr_left
          intro k _
          simp only [Function.comp, VectorRenderer.cardLayout, JsNum.mul, JsNum.add,
            JsNum.sub, JsNum.neg, JsNum.divNat, JsNum.ofInt, JsNum.ofNat, JsNum.toRat]
          push_cast
          field_simp
          ring
      · simp only [List.map_map]
        apply List.map_congr_left
        intro k _
        simp only [Function.comp, VectorRenderer.cardLayout, JsNum.mul, JsNum.add,
          JsNum.sub, JsNum.neg, JsNum.divNat, JsNum.ofInt, JsNum.ofNat, JsNum.toRat]
        push_cast
        field_simp
        ring
    · simp only [List.map_map]
      apply List.map_congr_left
      intro k _
      simp only [Function.comp, VectorRenderer.cardLayout, JsNum.mul, JsNum.add,
        JsNum.sub, JsNum.neg, JsNum.divNat, JsNum.ofInt, JsNum.ofNat, JsNum.toRat]
      push_cast
      field_simp
      ring
  · simp only [VectorRenderer.uploadAllLinearDims, List.map, List.cons.injEq]
    and_intros <;>
        (try simp only [JsNum.mul, JsNum.add, JsNum.sub, JsNum.neg, JsNum.divNat,
          JsNum.ofInt, JsNum.toRat]) <;>
        (try push_cast) <;> (try field_simp) <;> (try ring)

/-- Witness for C3 at the concrete scales 1 and 2. -/
theorem vectorDims_scale_uniformly_witness :
    (JsNum.ofInt 1).WF ∧ (JsNum.ofInt 2).WF ∧
      ((VectorRenderer.cardAllLinearDims (JsNum.ofInt 2)).map JsNum.toRat =
          ((VectorRenderer.cardAllLinearDims (JsNum.ofInt 1)).map JsNum.toRat).map
            (· * ((JsNum.ofInt 2).toRat / (JsNum.ofInt 1).toRat)) ∧
        (VectorRenderer.uploadAllLinearDims (JsNum.ofInt 2)).map JsNum.toRat =
          ((VectorRenderer.uploadAllLinearDims (JsNum.ofInt 1)).map JsNum.toRat).map
            (· * ((JsNum.ofInt 2).toRat / (JsNum.ofInt 1).toRat))) :=
  ⟨by decide, by decide,
    vectorDims_scale_uniformly (JsNum.ofInt 1) (JsNum.ofInt 2) (by decide) (by decide)
      (by norm_num [JsNum.toRat, JsNum.ofInt]) (by norm_num [JsNum.toRat, JsNum.ofInt])⟩

/-- C4: for every input string the AI-friendliness score is an integer (by
type, `ℤ`) in the inclusive range [0, 100]. -/
theorem aiFriendlyScore_in_range (content : String) :
    0 ≤ (ExportEngine.analyzeAIFriendliness content).aiFriendlyScore ∧
      (ExportEngine.analyzeAIFriendliness content).aiFriendlyScore ≤ 100 := by
  have h := calculateAIScore_bounds (ExportEngine.ceilDiv4 (utf16Len content))
    (ExportEngine.countTags content)
    (ExportEngine.jsIncludes content "stroke-dasharray"
      || ExportEngine.jsIncludes content "transform"
      || ExportEngine.jsIncludes content "viewBox")
  exact ⟨le_trans (by norm_num) h.1, h.2⟩

/-- C5: the byte size reported by the benchmark engine is the UTF-8 encoded
length (per-character UTF-8 widths summed), and on the Cyrillic sample
`"Далі"` (8 UTF-8 bytes) it differs from the UTF-16 code-unit count (4). -/
theorem calculatePayload_utf8_not_utf16 :
    (∀ s : String, BenchmarkEngine.calculatePayload s = utf8Len s) ∧
      BenchmarkEngine.calculatePayload "Далі" ≠ utf16Len "Далі" :=
  ⟨calculatePayload_eq_utf8Len, by decide⟩

/-- C6: for positive counts, the stress-test averages are exactly the totals
divided by the count (they are defined that way, not measured separately). -/
theorem stressTest_avg_consistency (f : Nat → String) (count : Int) (elapsed : ℚ)
    (_hc : 0 < count) :
    (BenchmarkEngine.stressTest f count elapsed).avgSize =
        (BenchmarkEngine.stressTest f count elapsed).totalSize / (count : ℚ) ∧
      (BenchmarkEngine.stressTest f count elapsed).avgTime =
        (BenchmarkEngine.stressTest f count elapsed).totalTime / (count : ℚ) :=
  ⟨rfl, rfl⟩

/-- Witness for C6 with a fixed 10-byte renderer, count 3, elapsed 7 ms. -/
theorem stressTest_avg_consistency_witness :
    (0 : Int) < 3 ∧
      ((BenchmarkEngine.stressTest (fun _ => "0123456789") 3 7).avgSize =
          (BenchmarkEngine.stressTest (fun _ => "0123456789") 3 7).totalSize / ((3 : Int) : ℚ) ∧
        (BenchmarkEngine.stressTest (fun _ => "0123456789") 3 7).avgTime =
          (BenchmarkEngine.stressTest (fun _ => "0123456789") 3 7).totalTime / ((3 : Int) : ℚ)) :=
  ⟨by decide, stressTest_avg_consistency (fun _ => "0123456789") 3 7 (by decide)⟩

/-- C7, counterexample: `stressTest` performs no validation of the iteration
count: called with count 0 (or −3) it returns a normal result record computed
from zero iterations (`totalSize = 0`), rather than raising or clamping. -/
theorem stressTest_accepts_zero_count :
    (BenchmarkEngine.stressTest (fun _ => "0123456789") 0 5).count = 0 ∧
      (BenchmarkEngine.stressTest (fun _ => "0123456789") 0 5).totalSize = 0 ∧
      (BenchmarkEngine.stressTest (fun _ => "0123456789") (-3) 5).count = -3 ∧
      (BenchmarkEngine.stressTest (fun _ => "0123456789") (-3) 5).totalSize = 0 :=
  ⟨rfl, rfl, rfl, rfl⟩

/-- C7, amended: for every non-positive count the stress test silently
returns a zero-iteration result (count passed through, `totalSize = 0`); no
error is raised and no clamping occurs.  (In JavaScript the averages are then
`NaN` or `Infinity`; in the exact model they are `0/0 = 0`.) -/
theorem stressTest_no_count_validation (f : Nat → String) (count : Int) (elapsed : ℚ)
    (hc : count ≤ 0) :
    (BenchmarkEngine.stressTest f count elapsed).count = count ∧
      (BenchmarkEngine.stressTest f count elapsed).totalSize = 0 := by
  refine ⟨rfl, ?_⟩
  unfold BenchmarkEngine.stressTest
  simp [Int.toNat_of_nonpos hc]

/-- Witness for C7 (amended) at count −2. -/
theorem stressTest_no_count_validation_witness :
    (-2 : Int) ≤ 0 ∧
      ((BenchmarkEngine.stressTest (fun _ => "x") (-2) 5).count = -2 ∧
        (BenchmarkEngine.stressTest (fun _ => "x") (-2) 5).totalSize = 0) :=
  ⟨by decide, stressTest_no_count_validation (fun _ => "x") (-2) 5 (by decide)⟩

/-- C8, counterexample: the DOM renderer does not reject invalid scales: at
scale 0 and scale −1 it returns markup normally (a non-empty string), so the
rejection behavior is not uniform across renderer variants. -/
theorem dom_render_accepts_zero_scale :
    exceptIsOk (DomRenderer.renderExc defaultProps (JsNum.ofInt 0)) = true ∧
      exceptIsOk (DomRenderer.renderExc defaultProps (JsNum.ofInt (-1))) = true ∧
      0 < utf8Len (DomRenderer.render defaultProps (JsNum.ofInt 0)) := by
  refine ⟨rfl, rfl, ?_⟩
  unfold DomRenderer.render
  rw [utf8Len_outputOfTokens]
  decide

/-- C8, amended: the vector renderer rejects any scale ≤ 0 with a
`RangeError` (for both of its screens), while the DOM renderer accepts the
same scale and returns markup; the validation policy is inconsistent across
variants, exactly as the spec's design notes concede. -/
theorem scale_rejection_inconsistent (p : Props) (s : JsNum) (st : VectorRenderer.State)
    (hwf : s.WF) (hle : s.toRat ≤ 0) :
    VectorRenderer.render p s st =
        .error (.rangeError ("Scale must be between 0 and 100, got " ++ fmtNum s)) ∧
      exceptIsOk (DomRenderer.renderExc p s) = true := by
  refine ⟨?_, rfl⟩
  have hv := VectorRenderer.validateScale_of_nonpos s hwf hle
  unfold VectorRenderer.render
  by_cases hcond :
      (jsTruthy p.buttonText || jsTruthy p.subtitle || jsTruthy p.description) = true
  · simp only [hcond, if_true]
    unfold VectorRenderer.renderUploadScreen
    rw [hv]
    rfl
  · simp only [Bool.not_eq_true] at hcond
    simp only [hcond, Bool.false_eq_true, if_false]
    unfold VectorRenderer.renderDiiaIDCard
    rw [hv]

/-- Witness for C8 (amended) at scale 0 on a fresh renderer. -/
theorem scale_rejection_inconsistent_witness :
    (JsNum.ofInt 0).WF ∧ (JsNum.ofInt 0).toRat ≤ 0 ∧
      (VectorRenderer.render defaultProps (JsNum.ofInt 0) VectorRenderer.initialState =
          .error (.rangeError ("Scale must be between 0 and 100, got "
            ++ fmtNum (JsNum.ofInt 0))) ∧
        exceptIsOk (DomRenderer.renderExc defaultProps (JsNum.ofInt 0)) = true) :=
  ⟨by decide, by norm_num [JsNum.toRat, JsNum.ofInt],
    scale_rejection_inconsistent defaultProps (JsNum.ofInt 0) VectorRenderer.initialState
      (by decide) (by norm_num [JsNum.toRat, JsNum.ofInt])⟩

/-- C9, counterexample: `estimatedTokens` is the ceiling of the *UTF-16
code-unit* count over 4, not of the character count: on a string of three
supplementary-plane characters (`👤👤👤`, 6 code units but 3 characters) the
engine reports 2 tokens while `⌈3 / 4⌉ = 1`. -/
theorem estimatedTokens_not_char_ceil :
    (ExportEngine.analyzeAIFriendliness "👤👤👤").estimatedTokens ≠
      ⌈((("👤👤👤" : String).length : ℚ)) / 4⌉₊ := by
  have h1 : (ExportEngine.analyzeAIFriendliness "👤👤👤").estimatedTokens = 2 := by decide
  have hlen : ("👤👤👤" : String).length = 3 := by decide
  rw [h1, hlen, ceil_quarter]
  decide

/-- C9, amended: `estimatedTokens` equals the ceiling of the UTF-16 code-unit
count divided by 4; for strings without supplementary-plane characters this
coincides with the ceiling of the character count divided by 4. -/
theorem estimatedTokens_utf16_ceil (content : String) :
    (ExportEngine.analyzeAIFriendliness content).estimatedTokens =
        ⌈(utf16Len content : ℚ) / 4⌉₊ ∧
      ((∀ c ∈ content.data, c.toNat < 0x10000) →
        (ExportEngine.analyzeAIFriendliness content).estimatedTokens =
          ⌈(content.length : ℚ) / 4⌉₊) := by
  constructor
  · show ExportEngine.ceilDiv4 (utf16Len content) = _
    rw [ceil_quarter]
    rfl
  · intro h
    show ExportEngine.ceilDiv4 (utf16Len content) = _
    rw [ceil_quarter, ← utf16Len_eq_length_of_bmp content h]
    rfl

/-- Witness for C9 (amended) on an all-ASCII sample. -/
theorem estimatedTokens_utf16_ceil_witness :
    (∀ c ∈ ("abcdefgh" : String).data, c.toNat < 0x10000) ∧
      (ExportEngine.analyzeAIFriendliness "abcdefgh").estimatedTokens =
        ⌈((("abcdefgh" : String).length : ℚ)) / 4⌉₊ :=
  ⟨by decide, (estimatedTokens_utf16_ceil "abcdefgh").2 (by decide)⟩

/-- C10: the raw score is always at least 10 (the maximal penalties 50 + 40
cannot push 100 below 10, and the formula bonus only adds), so the lower
clamp at 0 is never reached and the effective score range is [10, 100]. -/
theorem aiFriendlyScore_at_least_ten :
    (∀ (tokens elements : Nat) (hasFormulas : Bool),
      10 ≤ ExportEngine.calculateAIScoreRaw tokens elements hasFormulas) ∧
    (∀ content : String,
      10 ≤ (ExportEngine.analyzeAIFriendliness content).aiFriendlyScore ∧
        (ExportEngine.analyzeAIFriendliness content).aiFriendlyScore ≤ 100) := by
  constructor
  · intro t e f
    unfold ExportEngine.calculateAIScoreRaw
    split_ifs <;> norm_num
  · intro content
    exact calculateAIScore_bounds (ExportEngine.ceilDiv4 (utf16Len content))
      (ExportEngine.countTags content)
      (ExportEngine.jsIncludes content "stroke-dasharray"
        || ExportEngine.jsIncludes content "transform"
        || ExportEngine.jsIncludes content "viewBox")
